import Mathlib

/-!
# Mentor Certification Workflow — verification

Shallow embedding of the mentor certification core of the Bond Room backend
(`core/models/mentor_onboarding.py`, `core/onboarding.py`, `core/quiz.py`,
`core/api_views.py`) together with proofs about the embedded definitions.

Conventions:
* Python strings become `String`; Python status enums stay strings, exactly as
  in the source.
* Django model rows become structures holding the fields the core reads.
* Timestamps (`timezone.now()`) are modelled as `Nat` values supplied by the
  caller.
* The external question-generation call and `random.shuffle` are modelled as
  function parameters (the source treats both as opaque effects).
-/

namespace BondRoom

/-! ## Definitions -/

/-- `MentorOnboardingStatus.derive_current_status`: rejected dominates; then the
product short-circuit (identity + training + final approval all completed);
then all-pending / all-completed; else in review. -/
def derive_current_status (application_status identity_status contact_status
    training_status final_approval_status : String) : String :=
  let stages := [application_status, identity_status, contact_status,
    training_status, final_approval_status]
  if stages.any (fun item => item == "rejected") then "rejected"
  else if identity_status == "completed" && training_status == "completed" &&
      final_approval_status == "completed" then "completed"
  else if stages.all (fun item => item == "pending") then "pending"
  else if stages.all (fun item => item == "completed") then "completed"
  else "in_review"

/-- One entry of the per-mentor module payload built by
`build_training_module_payload_for_mentor` (the fields the core reads). -/
structure ModuleState where
  id : Nat
  training_status : String
  progress_percent : Nat
  completed_at : Option Nat
deriving Repr, DecidableEq

/-- `derive_training_status_from_module_payload` (`core/onboarding.py`). -/
def derive_training_status_from_module_payload
    (module_payload : List ModuleState) : String :=
  if module_payload.isEmpty then "pending"
  else if module_payload.all (fun item => item.training_status == "completed")
    then "completed"
  else if module_payload.any (fun item => item.progress_percent > 0)
    then "in_review"
  else "pending"

/-- The payload branch of `sync_mentor_onboarding_training_status`
(`core/onboarding.py`): demote a module-level `completed` to `in_review`
unless a passed quiz attempt exists. -/
def sync_training_status_from_payload (module_payload : List ModuleState)
    (quiz_passed : Bool) : String :=
  let module_status := derive_training_status_from_module_payload module_payload
  if module_status == "completed" && !quiz_passed then "in_review"
  else module_status

/-- Restatement of the spec's `derive_training_status(module_states,
quiz_passed)` case-list, used as the refinement target for C4. -/
def spec_derive_training_status (module_payload : List ModuleState)
    (quiz_passed : Bool) : String :=
  if module_payload = [] then "pending"
  else if module_payload.all (fun item => item.training_status == "completed")
    then (if quiz_passed then "completed" else "in_review")
  else if module_payload.any (fun item => item.progress_percent > 0)
    then "in_review"
  else "pending"

/-- `TrainingModule` fields read by the certification core. -/
structure TrainingModule where
  id : Nat
  title : String
deriving Repr, DecidableEq

/-- Stored `MentorTrainingProgress` fields read by the certification core
(`last_activity_at` / `updated_at` are write-only bookkeeping). -/
structure MentorTrainingProgress where
  status : String
  progress_percent : Nat
  completed_at : Option Nat
deriving Repr, DecidableEq

/-- The per-mentor progress rows keyed by module id (the `progress_map` dict in
`build_training_module_payload_for_mentor`). -/
def ProgressStore : Type := Nat → Option MentorTrainingProgress

/-- The store of a mentor with no progress rows yet. -/
def empty_store : ProgressStore := fun _ => none

/-- `is_completed` in `build_training_module_payload_for_mentor`:
`progress and (progress.status == "completed" or progress.progress_percent >= 100)`. -/
def effectively_completed (progress : Option MentorTrainingProgress) : Bool :=
  match progress with
  | some p => p.status == "completed" || decide (100 ≤ p.progress_percent)
  | none => false

/-- One loop body of `build_training_module_payload_for_mentor`: classify a
module from its stored progress and the `previous_modules_completed` flag. -/
def payload_entry (module : TrainingModule)
    (progress : Option MentorTrainingProgress)
    (previous_modules_completed : Bool) : ModuleState :=
  if effectively_completed progress then
    { id := module.id, training_status := "completed", progress_percent := 100,
      completed_at := progress.bind (fun p => p.completed_at) }
  else if previous_modules_completed then
    { id := module.id, training_status := "in_progress",
      progress_percent :=
        match progress with
        | some p => if 50 ≤ p.progress_percent then 50 else 0
        | none => 0,
      completed_at := none }
  else
    { id := module.id, training_status := "locked", progress_percent := 0,
      completed_at := none }

/-- The fold of `build_training_module_payload_for_mentor` over the module
list, threading `previous_modules_completed`. -/
def build_payload_go (progress_map : ProgressStore) :
    List TrainingModule → Bool → List ModuleState
  | [], _ => []
  | module :: rest, previous_modules_completed =>
    let entry := payload_entry module (progress_map module.id)
      previous_modules_completed
    entry :: build_payload_go progress_map rest
      (previous_modules_completed && entry.training_status == "completed")

/-- `build_training_module_payload_for_mentor` (`core/api_views.py`). -/
def build_training_module_payload_for_mentor (modules : List TrainingModule)
    (progress_map : ProgressStore) : List ModuleState :=
  build_payload_go progress_map modules true

/-- Error taxonomy of the REST layer (HTTP 404 / 409 / 400 / 503). -/
inductive ApiError where
  | notFound
  | conflict
  | invalidRequest
  | serviceUnavailable
deriving Repr, DecidableEq

/-- `defaults={"status": "in_progress", "progress_percent": 0}` of the
`get_or_create` call in `watch_video`. -/
def default_progress_row : MentorTrainingProgress :=
  { status := "in_progress", progress_percent := 0, completed_at := none }

/-- `current_percent = 100 if p >= 100 else 50 if p >= 50 else 0`. -/
def current_percent (progress : MentorTrainingProgress) : Nat :=
  if 100 ≤ progress.progress_percent then 100
  else if 50 ≤ progress.progress_percent then 50
  else 0

/-- The progress row written by `watch_video` for a given `next_percent`:
status `completed` and stamped `completed_at` exactly when the module reaches
100 percent. -/
def saved_progress (next_percent : Nat) (now : Nat) : MentorTrainingProgress :=
  { status := if 100 ≤ next_percent then "completed" else "in_progress",
    progress_percent := next_percent,
    completed_at := if 100 ≤ next_percent then some now else none }

/-- Overwrite the progress row of one module id. -/
def update_store (progress_map : ProgressStore) (module_id : Nat)
    (row : MentorTrainingProgress) : ProgressStore :=
  fun id => if id = module_id then some row else progress_map id

/-- `TrainingModuleViewSet.watch_video` (`core/api_views.py`), as a transformer
of the progress store; `video_index` is 1 or 2 (serializer-validated), `now` is
the `timezone.now()` value. -/
def watch_video (modules : List TrainingModule) (progress_map : ProgressStore)
    (module_id : Nat) (video_index : Nat) (now : Nat) :
    Except ApiError ProgressStore :=
  let module_payload := build_training_module_payload_for_mentor modules
    progress_map
  match module_payload.find? (fun item => item.id == module_id) with
  | none => .error .notFound
  | some module_state =>
    if module_state.training_status == "locked" then .error .conflict
    else
      let progress := (progress_map module_id).getD default_progress_row
      let current := current_percent progress
      if video_index == 1 then
        .ok (update_store progress_map module_id
          (saved_progress (max current 50) now))
      else
        if current < 50 then .error .invalidRequest
        else .ok (update_store progress_map module_id (saved_progress 100 now))

/-- One call of the watch-video endpoint: module id, video index and the
timestamp of the call. -/
structure WatchEvent where
  module_id : Nat
  video_index : Nat
  now : Nat
deriving Repr, DecidableEq

/-- Apply one watch event; a failing request leaves the store unchanged. -/
def apply_watch_event (modules : List TrainingModule) (store : ProgressStore)
    (event : WatchEvent) : ProgressStore :=
  match watch_video modules store event.module_id event.video_index event.now with
  | .ok store' => store'
  | .error _ => store

/-- Replay a sequence of watch events from the empty store. -/
def apply_watch_events (modules : List TrainingModule)
    (events : List WatchEvent) : ProgressStore :=
  events.foldl (apply_watch_event modules) empty_store

/-- Placeholder module used with `List.getD`. -/
def dummyModule : TrainingModule := { id := 0, title := "" }

/-- Placeholder payload entry used with `List.getD`. -/
def dummyState : ModuleState :=
  { id := 0, training_status := "", progress_percent := 0, completed_at := none }

/-- The stored rows a mentor can actually have: `completed` status and 100
percent coincide (what `watch_video` writes). -/
def WellFormedStore (store : ProgressStore) : Prop :=
  ∀ id p, store id = some p → (p.status = "completed" ↔ 100 ≤ p.progress_percent)

/-- Completed modules form a downward-closed prefix of the module order. -/
def PrefixClosed (modules : List TrainingModule) (store : ProgressStore) : Prop :=
  ∀ i j, i < j → j < modules.length →
    effectively_completed (store ((modules.getD j dummyModule).id)) = true →
    effectively_completed (store ((modules.getD i dummyModule).id)) = true

/-- The effective (computed, not stored) training status a mentor sees for the
module at position `k`. -/
def effective_status (modules : List TrainingModule) (store : ProgressStore)
    (k : Nat) : String :=
  ((build_training_module_payload_for_mentor modules store).getD k
    dummyState).training_status

/-- Python `str.lower()`: lower-case character by character. -/
def str_lower (s : String) : String :=
  String.mk (s.data.map Char.toLower)

/-- Python `str.strip()`: drop whitespace from both ends. -/
def str_trim (s : String) : String :=
  String.mk (((s.data.dropWhile Char.isWhitespace).reverse.dropWhile
    Char.isWhitespace).reverse)

/-- Drop leading whitespace (the `\s*` pieces of the markers). -/
def skipSpaces : List Char → List Char
  | [] => []
  | c :: rest => if c.isWhitespace then skipSpaces rest else c :: rest

/-- Consume a maximal run of digits, returning how many were consumed. -/
def spanDigits : List Char → Nat × List Char
  | [] => (0, [])
  | c :: rest =>
    if c.isDigit then
      let (n, r) := spanDigits rest
      (n + 1, r)
    else (0, c :: rest)

/-- Matcher for the case-insensitive pattern `^\s*\[\s*q\s*\d+\s*\]\s*`
(`re.sub` in `clean_question_text`); returns the remainder on a match. -/
def match_qn_bracket (cs : List Char) : Option (List Char) :=
  match skipSpaces cs with
  | '[' :: r1 =>
    match skipSpaces r1 with
    | c :: r2 =>
      if c.toLower = 'q' then
        let (n, r3) := spanDigits (skipSpaces r2)
        if n = 0 then none
        else
          match skipSpaces r3 with
          | ']' :: r4 => some (skipSpaces r4)
          | _ => none
      else none
    | [] => none
  | _ => none

/-- Matcher for the case-insensitive pattern `^\s*q\s*\d+\s*[:\.\-\)]\s*`
(second `re.sub` in `clean_question_text`). -/
def match_qn_marker (cs : List Char) : Option (List Char) :=
  match skipSpaces cs with
  | c :: r1 =>
    if c.toLower = 'q' then
      let (n, r2) := spanDigits (skipSpaces r1)
      if n = 0 then none
      else
        match skipSpaces r2 with
        | p :: r3 =>
          if p = ':' ∨ p = '.' ∨ p = '-' ∨ p = ')' then some (skipSpaces r3)
          else none
        | [] => none
    else none
  | [] => none

/-- `clean_question_text` (`core/quiz.py`): trim, strip a leading `[Qn]`
marker, then a leading `Qn:`-style marker, trim again. -/
def clean_question_text (value : String) : String :=
  let text := str_trim value
  if text = "" then ""
  else
    let cs := text.data
    let cs1 := match match_qn_bracket cs with
      | some r => r
      | none => cs
    let cs2 := match match_qn_marker cs1 with
      | some r => r
      | none => cs1
    str_trim (String.mk cs2)

/-- One raw item returned by the external generation source. `options = none`
models a JSON value that is not a list; `correct_option_index = none` models a
value `int()` rejects. -/
structure RawQuestion where
  question : String
  options : Option (List String)
  correct_option_index : Option Int
  module_title : String
deriving Repr, DecidableEq

/-- A normalized quiz question (the dict appended by
`_normalize_generated_questions`). -/
structure QuizQuestion where
  question : String
  options : List String
  correct_option_index : Nat
  module_title : String
deriving Repr, DecidableEq

/-- Substring test (Python's `in` on strings), on character lists. -/
def list_is_infix_of (needle : List Char) : List Char → Bool
  | [] => needle.isEmpty
  | c :: rest => needle.isPrefixOf (c :: rest) || list_is_infix_of needle rest

/-- `_canonicalize_module_title` (`core/quiz.py`). -/
def _canonicalize_module_title (raw_title : String)
    (module_titles : List String) (module_index : Nat) : String :=
  match module_titles with
  | [] => str_trim raw_title
  | _ =>
    let raw := str_trim raw_title
    if raw = "" then module_titles.getD (module_index % module_titles.length) ""
    else
      let raw_key := str_lower raw
      match module_titles.find? (fun title =>
          let title_key := str_lower title
          raw_key == title_key || list_is_infix_of raw_key.data title_key.data ||
            list_is_infix_of title_key.data raw_key.data) with
      | some title => title
      | none => module_titles.getD (module_index % module_titles.length) ""

/-- Loop body of `_normalize_generated_questions`; `normalized` and `seen`
are the accumulators, `limit = none` models Python's falsy `limit=None`. -/
def normalize_generated_go (module_titles : List String) (limit : Option Nat) :
    List RawQuestion → List QuizQuestion → List String → List QuizQuestion
  | [], normalized, _ => normalized
  | item :: rest, normalized, seen =>
    let question_text := clean_question_text item.question
    if question_text = "" then
      normalize_generated_go module_titles limit rest normalized seen
    else
      match item.options with
      | none => normalize_generated_go module_titles limit rest normalized seen
      | some raw_options =>
        let options := (raw_options.map (fun o => str_trim o)).filter
          (fun o => o ≠ "")
        if options.length < 4 then
          normalize_generated_go module_titles limit rest normalized seen
        else
          let options := options.take 4
          let correct0 : Int := match item.correct_option_index with
            | some v => v
            | none => 0
          let correct_idx : Nat :=
            if correct0 < 0 ∨ (options.length : Int) ≤ correct0 then 0
            else correct0.toNat
          let dedupe_key := str_lower question_text
          if seen.contains dedupe_key then
            normalize_generated_go module_titles limit rest normalized seen
          else
            let module_title := _canonicalize_module_title item.module_title
              module_titles normalized.length
            let normalized' := normalized ++
              [⟨question_text, options, correct_idx, module_title⟩]
            if (match limit with
                | some l => l ≠ 0 && l ≤ normalized'.length
                | none => false) then normalized'
            else normalize_generated_go module_titles limit rest normalized'
              (dedupe_key :: seen)

/-- `_normalize_generated_questions` (`core/quiz.py`); module titles are what
`_module_summary_payload` extracts from the modules. -/
def _normalize_generated_questions (raw_questions : List RawQuestion)
    (modules : List TrainingModule) (limit : Option Nat) : List QuizQuestion :=
  normalize_generated_go (modules.map (fun m => m.title)) limit
    raw_questions [] []

/-- The per-module coverage pass of `_select_questions_for_quiz`: pick, for
each module title in order, the first unused candidate carrying that title;
`none` models the `RuntimeError` for an unrepresented module. -/
def coverage_select (candidates : List QuizQuestion) :
    List String → List String → Option (List QuizQuestion × List String)
  | [], used => some ([], used)
  | module_title :: rest, used =>
    match candidates.find? (fun item =>
        item.module_title == module_title &&
          !(used.contains (str_lower item.question))) with
    | none => none
    | some module_question =>
      match coverage_select candidates rest
          (str_lower module_question.question :: used) with
      | none => none
      | some (sel, used') => some (module_question :: sel, used')

/-- The fill pass of `_select_questions_for_quiz`: append unused candidates in
encounter order, stopping as soon as `total_questions` are selected. -/
def fill_select (total_questions : Nat) :
    List QuizQuestion → List QuizQuestion → List String → List QuizQuestion
  | [], selected, _ => selected
  | item :: rest, selected, used =>
    let question_key := str_lower item.question
    if used.contains question_key then
      fill_select total_questions rest selected used
    else
      let selected' := selected ++ [item]
      if total_questions ≤ selected'.length then selected'
      else fill_select total_questions rest selected' (question_key :: used)

/-- `_select_questions_for_quiz` (`core/quiz.py`). -/
def _select_questions_for_quiz (candidates : List QuizQuestion)
    (modules : List TrainingModule) (total_questions : Nat) :
    Except String (List QuizQuestion) :=
  let module_titles := modules.map (fun m => m.title)
  let coverage :=
    if module_titles ≠ [] ∧ module_titles.length ≤ total_questions then
      coverage_select candidates module_titles []
    else some ([], [])
  match coverage with
  | none => .error "OpenAI output did not include questions for all modules."
  | some (selected0, used0) =>
    let selected := fill_select total_questions candidates selected0 used0
    if selected.length < total_questions then
      .error "OpenAI did not return enough valid quiz questions."
    else .ok (selected.take total_questions)

/-- The external generation source, indexed by widening round: given the round
number, the modules scoped into the request and the requested count, it
returns raw items (the parsed OpenAI payload). -/
def GenerationSource : Type :=
  Nat → List TrainingModule → Nat → List RawQuestion

/-- Outcome of `generate_training_quiz_questions`: success, the
`GenerationExhausted` RuntimeError carrying the count of valid unique
candidates, or the `total_questions <= 0` RuntimeError. -/
inductive GenResult where
  | success (questions : List QuizQuestion)
  | exhausted (valid_unique_count : Nat)
  | invalidTotal
deriving Repr, DecidableEq

/-- The per-round dedup merge of `generate_training_quiz_questions`:
normalized items are appended to `all_candidates` unless their lower-cased
text was already seen. -/
def merge_candidates :
    List QuizQuestion → List QuizQuestion → List String →
      List QuizQuestion × List String
  | [], all_candidates, seen => (all_candidates, seen)
  | item :: rest, all_candidates, seen =>
    let question_key := str_lower item.question
    if seen.contains question_key then merge_candidates rest all_candidates seen
    else merge_candidates rest (all_candidates ++ [item])
      (question_key :: seen)

/-- The widening-round loop of `generate_training_quiz_questions`; `fuel`
counts the remaining rounds (5 at the top call) and `5 - fuel` is the round
index passed to the source. `shuffle` models `random.shuffle`. -/
def generate_rounds (modules : List TrainingModule)
    (source : GenerationSource)
    (shuffle : List QuizQuestion → List QuizQuestion)
    (total_questions : Nat) :
    Nat → List QuizQuestion → List String → GenResult
  | 0, all_candidates, _ => .exhausted all_candidates.length
  | fuel + 1, all_candidates, seen_questions =>
    let represented_modules := all_candidates.map (fun item => item.module_title)
    let all_module_titles := modules.map (fun m => m.title)
    let missing_modules := all_module_titles.filter
      (fun title => !(represented_modules.contains title))
    let request_modules :=
      match modules.filter (fun m => missing_modules.contains m.title) with
      | [] => modules
      | l => l
    let request_count := max 6 (max (total_questions - all_candidates.length)
      request_modules.length)
    let generated := source (5 - (fuel + 1)) request_modules request_count
    let normalized := _normalize_generated_questions generated modules none
    let merged := merge_candidates normalized all_candidates seen_questions
    match _select_questions_for_quiz merged.1 modules total_questions with
    | .ok questions => .success (shuffle questions)
    | .error _ => generate_rounds modules source shuffle total_questions fuel
        merged.1 merged.2

/-- `generate_training_quiz_questions` (`core/quiz.py`). -/
def generate_training_quiz_questions (modules : List TrainingModule)
    (source : GenerationSource)
    (shuffle : List QuizQuestion → List QuizQuestion)
    (total_questions : Nat) : GenResult :=
  if total_questions = 0 then .invalidTotal
  else generate_rounds modules source shuffle total_questions 5 [] []

/-- The answer-normalization and grading body of `evaluate_quiz_attempt`:
entries beyond the question count are dropped, entries `int()` rejects or
negative ones become unanswered (`none`), and the score counts exact matches
with each question's correct option index. -/
def grade_quiz (questions : List QuizQuestion)
    (selected_answers : List (Option Int)) : Nat × List (Option Int) :=
  let answers := (List.range questions.length).map (fun index =>
    match (selected_answers.take questions.length).get? index with
    | some (some parsed) => if 0 ≤ parsed then some parsed else none
    | some none => none
    | none => none)
  let score := ((answers.zip questions).filter (fun p =>
    match p.1 with
    | some v => v == (p.2.correct_option_index : Int)
    | none => false)).length
  (score, answers)

/-- `evaluate_quiz_attempt` (`core/quiz.py`); the argument is `none` when the
submitted value is not a list (the `ValueError` branch). -/
def evaluate_quiz_attempt (questions : List QuizQuestion)
    (selected_answers : Option (List (Option Int))) :
    Except String (Nat × List (Option Int)) :=
  match selected_answers with
  | none => .error "selected_answers must be a list."
  | some selected => .ok (grade_quiz questions selected)

/-- `TRAINING_QUIZ_PASS_MARK = 7` (`core/api_views.py`). -/
def TRAINING_QUIZ_PASS_MARK : Nat := 7

/-- One triple of `quiz_questions_signature`. -/
def SigEntry : Type := String × List String × String

instance : DecidableEq SigEntry := by
  unfold SigEntry
  infer_instance

/-- Lexicographic comparison of string lists (Python tuple comparison). -/
def compare_list_str : List String → List String → Ordering
  | [], [] => .eq
  | [], _ :: _ => .lt
  | _ :: _, [] => .gt
  | a :: as, b :: bs =>
    match compare a b with
    | .eq => compare_list_str as bs
    | o => o

/-- Lexicographic comparison of signature triples (Python tuple comparison,
used by `sorted`). -/
def compare_sig (a b : SigEntry) : Ordering :=
  match compare a.1 b.1 with
  | .eq =>
    match compare_list_str a.2.1 b.2.1 with
    | .eq => compare a.2.2 b.2.2
    | o => o
  | o => o

def sig_le (a b : SigEntry) : Bool :=
  match compare_sig a b with
  | .gt => false
  | _ => true

def insert_sorted (a : SigEntry) : List SigEntry → List SigEntry
  | [] => [a]
  | b :: rest =>
    if sig_le a b then a :: b :: rest else b :: insert_sorted a rest

/-- `sorted(...)` over signature triples (insertion sort; stable total-order
sort, like Python's). -/
def sort_signature : List SigEntry → List SigEntry
  | [] => []
  | a :: rest => insert_sorted a (sort_signature rest)

/-- `quiz_questions_signature` (`core/api_views.py`): the sorted list of
`(question_text_lower, options_lower, module_title_lower)` triples. -/
def quiz_questions_signature (questions : List QuizQuestion) :
    List SigEntry :=
  sort_signature (questions.map (fun item =>
    (str_lower (clean_question_text item.question),
      ((item.options.take 4).map (fun o => str_lower (str_trim o)),
        str_lower (str_trim item.module_title)))))

/-- `MentorTrainingQuizAttempt` fields read by the endpoints. -/
structure QuizAttempt where
  id : Nat
  total_questions : Nat
  pass_mark : Nat
  questions : List QuizQuestion
  selected_answers : List (Option Int)
  score : Nat
  status : String
  started_at : Nat
  submitted_at : Option Nat
deriving Repr, DecidableEq

/-- `order_by("-started_at", "-id").first()` over a filtered attempt list:
the most recent attempt, ties broken by larger id. -/
def latest_by_recency : List QuizAttempt → Option QuizAttempt :=
  List.foldl (fun acc a =>
    match acc with
    | none => some a
    | some b =>
      if b.started_at < a.started_at ∨
          (b.started_at = a.started_at ∧ b.id < a.id) then some a
      else some b) none

/-- `TrainingModuleViewSet._modules_fully_completed`. -/
def _modules_fully_completed (module_payload : List ModuleState) : Bool :=
  !module_payload.isEmpty &&
    module_payload.all (fun item => item.training_status == "completed")

/-- The `for _ in range(3)` regeneration loop of `quiz_start` inside its
`try/except`: each iteration calls the generator (source and shuffle indexed
by the iteration, standing for the fresh external randomness of each call),
breaking as soon as the produced signature differs from the latest resolved
attempt's; a generator failure raises and surfaces as `ServiceUnavailable`;
when the loop ends without a break, the last `questions` value is returned
for the final staleness check. -/
def quiz_start_retry_loop (modules : List TrainingModule)
    (sources : Nat → GenerationSource)
    (shuffles : Nat → List QuizQuestion → List QuizQuestion)
    (latest_signature : Option (List SigEntry)) :
    Nat → Nat → List QuizQuestion → Except ApiError (List QuizQuestion)
  | 0, _, questions => .ok questions
  | fuel + 1, i, _ =>
    match generate_training_quiz_questions modules (sources i) (shuffles i)
        15 with
    | .success questions =>
      (match latest_signature with
       | none => .ok questions
       | some sig0 =>
         if quiz_questions_signature questions ≠ sig0 then .ok questions
         else quiz_start_retry_loop modules sources shuffles latest_signature
           fuel (i + 1) questions)
    | _ => .error .serviceUnavailable

/-- The generation phase of `quiz_start`: the bounded retry loop followed by
the final staleness check
(`if latest_signature and quiz_questions_signature(questions) == latest_signature: 503`). -/
def quiz_start_generation (modules : List TrainingModule)
    (sources : Nat → GenerationSource)
    (shuffles : Nat → List QuizQuestion → List QuizQuestion)
    (latest_signature : Option (List SigEntry)) :
    Except ApiError (List QuizQuestion) :=
  match quiz_start_retry_loop modules sources shuffles latest_signature
      3 0 [] with
  | .error e => .error e
  | .ok questions =>
    match latest_signature with
    | some sig0 =>
      if quiz_questions_signature questions = sig0 then
        .error .serviceUnavailable
      else .ok questions
    | none => .ok questions

inductive QuizStartResponse where
  | conflictModulesIncomplete
  | alreadyPassed (attempt : QuizAttempt)
  | resumedPending (attempt : QuizAttempt)
  | unavailable
  | created (attempt : QuizAttempt)
deriving Repr, DecidableEq

/-- `TrainingModuleViewSet.quiz_start` (`core/api_views.py`) over the
mentor's attempt list; `new_id`/`started_at` model the row the ORM creates.
The onboarding-status sync is a separate side effect over the other state
(§ C4) and never touches the attempt list. -/
def quiz_start (modules : List TrainingModule) (store : ProgressStore)
    (attempts : List QuizAttempt) (sources : Nat → GenerationSource)
    (shuffles : Nat → List QuizQuestion → List QuizQuestion)
    (new_id started_at : Nat) : QuizStartResponse × List QuizAttempt :=
  let module_payload := build_training_module_payload_for_mentor modules store
  if !(_modules_fully_completed module_payload) then
    (.conflictModulesIncomplete, attempts)
  else
    match latest_by_recency (attempts.filter
        (fun a => a.status == "passed")) with
    | some passed_attempt => (.alreadyPassed passed_attempt, attempts)
    | none =>
      match latest_by_recency (attempts.filter
          (fun a => a.status == "pending")) with
      | some pending_attempt => (.resumedPending pending_attempt, attempts)
      | none =>
        let latest_signature := (latest_by_recency (attempts.filter
          (fun a => !(a.status == "pending")))).map
          (fun a => quiz_questions_signature a.questions)
        match quiz_start_generation modules sources shuffles
            latest_signature with
        | .error _ => (.unavailable, attempts)
        | .ok questions =>
          let attempt : QuizAttempt :=
            { id := new_id, total_questions := 15,
              pass_mark := TRAINING_QUIZ_PASS_MARK, questions := questions,
              selected_answers := [], score := 0, status := "pending",
              started_at := started_at, submitted_at := none }
          (.created attempt, attempts ++ [attempt])

/-- `MentorTrainingQuizAttempt.objects.filter(id=..., mentor=...).first()`. -/
def find_attempt (attempts : List QuizAttempt) (attempt_id : Nat) :
    Option QuizAttempt :=
  attempts.find? (fun a => a.id == attempt_id)

/-- The ORM `save()` of a mutated attempt row. -/
def replace_attempt (attempts : List QuizAttempt) (updated : QuizAttempt) :
    List QuizAttempt :=
  attempts.map (fun a => if a.id = updated.id then updated else a)

inductive QuizSubmitResponse where
  | notFound
  | conflictAlreadySubmitted (attempt : QuizAttempt)
  | graded (passed : Bool) (score : Nat) (wrong_count : Nat)
      (attempt : QuizAttempt)
deriving Repr, DecidableEq

/-- HTTP status of each `quiz_submit` response (`core/api_views.py`). -/
def submit_http_status : QuizSubmitResponse → Nat
  | .notFound => 404
  | .conflictAlreadySubmitted _ => 409
  | .graded _ _ _ _ => 200

/-- `TrainingModuleViewSet.quiz_submit` (`core/api_views.py`);
`selected_answers` is the serializer-validated list. -/
def quiz_submit (attempts : List QuizAttempt) (attempt_id : Nat)
    (selected_answers : List (Option Int)) (now : Nat) :
    QuizSubmitResponse × List QuizAttempt :=
  match find_attempt attempts attempt_id with
  | none => (.notFound, attempts)
  | some attempt =>
    if attempt.status ≠ "pending" then
      (.conflictAlreadySubmitted attempt, attempts)
    else
      let graded := grade_quiz attempt.questions selected_answers
      let score := graded.1
      let normalized_answers := graded.2
      let wrong_count := attempt.total_questions - score
      let new_pass_mark :=
        if attempt.pass_mark ≠ TRAINING_QUIZ_PASS_MARK then
          TRAINING_QUIZ_PASS_MARK
        else attempt.pass_mark
      let passed := TRAINING_QUIZ_PASS_MARK ≤ score
      let updated : QuizAttempt :=
        { attempt with
          pass_mark := new_pass_mark,
          selected_answers := normalized_answers,
          score := score,
          status := if passed then "passed" else "failed",
          submitted_at := some now }
      (.graded passed score wrong_count updated,
        replace_attempt attempts updated)

inductive QuizAbandonResponse where
  | notFound
  | done (attempt : QuizAttempt)
deriving Repr, DecidableEq

/-- HTTP status of each `quiz_abandon` response: the non-404 branch always
answers 200, also for non-pending attempts. -/
def abandon_http_status : QuizAbandonResponse → Nat
  | .notFound => 404
  | .done _ => 200

/-- `TrainingModuleViewSet.quiz_abandon` (`core/api_views.py`). -/
def quiz_abandon (attempts : List QuizAttempt) (attempt_id : Nat)
    (now : Nat) : QuizAbandonResponse × List QuizAttempt :=
  match find_attempt attempts attempt_id with
  | none => (.notFound, attempts)
  | some attempt =>
    if attempt.status == "pending" then
      let updated : QuizAttempt :=
        { attempt with
          score := 0,
          status := "failed",
          submitted_at := some now }
      (.done updated, replace_attempt attempts updated)
    else (.done attempt, attempts)

/-- Placeholder question used with `List.getD`. -/
def dummyQuestion : QuizQuestion :=
  { question := "", options := [], correct_option_index := 0,
    module_title := "" }

instance {ε α : Type} [DecidableEq ε] [DecidableEq α] :
    DecidableEq (Except ε α) := fun a b =>
  match a, b with
  | .ok x, .ok y =>
    if h : x = y then .isTrue (by rw [h]) else .isFalse (by simp [h])
  | .error x, .error y =>
    if h : x = y then .isTrue (by rw [h]) else .isFalse (by simp [h])
  | .ok _, .error _ => .isFalse (by simp)
  | .error _, .ok _ => .isFalse (by simp)

/-- Single-module configuration for the C3 analysis. -/
def cexModules : List TrainingModule := [⟨1, "M"⟩]

/-- A generation source whose first round yields one batch and whose later
rounds yield a different batch: it can produce at least two distinct valid
question sets. -/
def cexSource : GenerationSource := fun round _ _ =>
  if round = 0 then
    [⟨"alpha", some ["a", "b", "c", "d"], some 0, "M"⟩,
     ⟨"beta", some ["a", "b", "c", "d"], some 1, "M"⟩,
     ⟨"gamma", some ["a", "b", "c", "d"], some 2, "M"⟩]
  else
    [⟨"delta", some ["a", "b", "c", "d"], some 0, "M"⟩,
     ⟨"epsilon", some ["a", "b", "c", "d"], some 1, "M"⟩,
     ⟨"zeta", some ["a", "b", "c", "d"], some 2, "M"⟩]

/-- The same source seen from its second batch onwards. -/
def cexShiftedSource : GenerationSource := fun round ms c =>
  cexSource (round + 1) ms c

def gen_success : GenResult → Bool
  | .success _ => true
  | _ => false

def gen_questions : GenResult → List QuizQuestion
  | .success qs => qs
  | _ => []

/-- Fifteen distinct question names used to exercise a full quiz. -/
def cexNames : List String :=
  ["alpha", "beta", "gamma", "delta", "epsilon", "zeta", "eta", "theta",
   "iota", "kappa", "mu", "nu", "xi", "omicron", "pi"]

/-- A source returning fifteen valid questions on every round. -/
def cexBigSource : GenerationSource := fun _ _ _ =>
  cexNames.map (fun name => ⟨name, some ["a", "b", "c", "d"], some 0, "M"⟩)

/-- The set selected from `cexBigSource`'s batch. -/
def cexBigSet : List QuizQuestion :=
  cexNames.map (fun name => ⟨name, ["a", "b", "c", "d"], 0, "M"⟩)

/-- The row observed at the watched module id after a successful call. -/
def watch_result_row (result : Except ApiError ProgressStore) (id : Nat) :
    Option (Option MentorTrainingProgress) :=
  match result with
  | .ok store' => some (store' id)
  | .error _ => none

/-- A mentor store with one module already fully completed. -/
def c6_store : ProgressStore := fun id =>
  if id = 1 then
    some { status := "completed", progress_percent := 100, completed_at := some 0 }
  else none

/-- A concrete resolved (failed) attempt. -/
def c9_failed_attempt : QuizAttempt :=
  { id := 1, total_questions := 15, pass_mark := 7, questions := [],
    selected_answers := [], score := 3, status := "failed", started_at := 0,
    submitted_at := some 1 }

/-- A concrete pending attempt with one question. -/
def c10_pending_attempt : QuizAttempt :=
  { id := 4, total_questions := 15, pass_mark := 7,
    questions := [⟨"alpha", ["a", "b", "c", "d"], 0, "M"⟩],
    selected_answers := [], score := 0, status := "pending",
    started_at := 2, submitted_at := none }

/-! ## Theorems -/

theorem payload_entry_id (m : TrainingModule)
    (progress : Option MentorTrainingProgress) (prev : Bool) :
    (payload_entry m progress prev).id = m.id := by
  unfold payload_entry
  split_ifs <;> rfl

theorem payload_entry_status_completed (m : TrainingModule)
    (progress : Option MentorTrainingProgress) (prev : Bool) :
    ((payload_entry m progress prev).training_status == "completed") =
      effectively_completed progress := by
  unfold payload_entry
  by_cases h : effectively_completed progress = true
  · simp [h]
  · simp only [Bool.not_eq_true] at h
    simp only [h]
    cases prev <;> simp

theorem payload_entry_completed_iff (m : TrainingModule)
    (progress : Option MentorTrainingProgress) (prev : Bool) :
    (payload_entry m progress prev).training_status = "completed" ↔
      effectively_completed progress = true := by
  rw [← payload_entry_status_completed m progress prev]
  exact beq_iff_eq.symm

theorem payload_entry_in_progress_iff (m : TrainingModule)
    (progress : Option MentorTrainingProgress) (prev : Bool) :
    (payload_entry m progress prev).training_status = "in_progress" ↔
      (effectively_completed progress = false ∧ prev = true) := by
  unfold payload_entry
  by_cases h : effectively_completed progress = true
  · simp [h]
  · simp only [Bool.not_eq_true] at h
    simp only [h]
    cases prev <;> simp

theorem payload_entry_locked_iff (m : TrainingModule)
    (progress : Option MentorTrainingProgress) (prev : Bool) :
    (payload_entry m progress prev).training_status = "locked" ↔
      (effectively_completed progress = false ∧ prev = false) := by
  unfold payload_entry
  by_cases h : effectively_completed progress = true
  · simp [h]
  · simp only [Bool.not_eq_true] at h
    simp only [h]
    cases prev <;> simp

theorem build_payload_go_length (store : ProgressStore) :
    ∀ (modules : List TrainingModule) (prev : Bool),
      (build_payload_go store modules prev).length = modules.length := by
  intro modules
  induction modules with
  | nil => intro prev; rfl
  | cons m rest ih =>
    intro prev
    simp [build_payload_go, ih]

theorem build_payload_go_getD (store : ProgressStore) :
    ∀ (modules : List TrainingModule) (prev : Bool) (k : Nat),
      k < modules.length →
      (build_payload_go store modules prev).getD k dummyState =
        payload_entry (modules.getD k dummyModule)
          (store ((modules.getD k dummyModule).id))
          (prev && (modules.take k).all
            (fun m => effectively_completed (store m.id))) := by
  intro modules
  induction modules with
  | nil => intro prev k hk; simp at hk
  | cons m rest ih =>
    intro prev k hk
    cases k with
    | zero => simp [build_payload_go]
    | succ k =>
      have hk' : k < rest.length := by simpa using hk
      simp only [build_payload_go, List.getD_cons_succ, List.take_succ_cons,
        List.all_cons]
      rw [ih _ k hk', payload_entry_status_completed]
      congr 1
      rw [Bool.and_assoc]

theorem build_payload_go_find (store : ProgressStore) (module_id : Nat) :
    ∀ (modules : List TrainingModule) (prev : Bool),
      (build_payload_go store modules prev).find?
          (fun item => item.id == module_id) =
        (modules.find? (fun m => m.id == module_id)).map
          (fun m => payload_entry m (store m.id)
            (prev && (modules.takeWhile (fun m' => !(m'.id == module_id))).all
              (fun m' => effectively_completed (store m'.id)))) := by
  intro modules
  induction modules with
  | nil => intro prev; rfl
  | cons m rest ih =>
    intro prev
    simp only [build_payload_go, List.find?_cons, List.takeWhile_cons,
      payload_entry_id]
    cases hid : (m.id == module_id) with
    | true => simp
    | false =>
      simp only [Bool.not_false, if_true]
      rw [ih, payload_entry_status_completed]
      cases h : rest.find? (fun m' => m'.id == module_id) with
      | none => simp [h]
      | some mf =>
        simp only [h, Option.map_some', List.all_cons]
        congr 2
        rw [Bool.and_assoc]

theorem update_store_same (store : ProgressStore) (module_id : Nat)
    (row : MentorTrainingProgress) :
    update_store store module_id row module_id = some row := by
  simp [update_store]

theorem update_store_other (store : ProgressStore) (module_id : Nat)
    (row : MentorTrainingProgress) (id : Nat) (h : id ≠ module_id) :
    update_store store module_id row id = store id := by
  simp [update_store, h]

theorem effectively_completed_saved (next now : Nat) :
    effectively_completed (some (saved_progress next now)) =
      decide (100 ≤ next) := by
  unfold effectively_completed saved_progress
  split_ifs with h <;> simp [h]

theorem saved_progress_wellformed (next now : Nat) :
    (saved_progress next now).status = "completed" ↔
      100 ≤ (saved_progress next now).progress_percent := by
  unfold saved_progress
  split_ifs with h <;> simp [h]

theorem current_percent_saved (n now : Nat) :
    current_percent (saved_progress n now) =
      if 100 ≤ n then 100 else if 50 ≤ n then 50 else 0 := rfl

theorem watch_video_ok_cases (modules : List TrainingModule)
    (store : ProgressStore) (module_id video_index now : Nat)
    (st' : ProgressStore)
    (h : watch_video modules store module_id video_index now = .ok st') :
    ∃ ms, (build_training_module_payload_for_mentor modules store).find?
        (fun item => item.id == module_id) = some ms ∧
      ms.training_status ≠ "locked" ∧
      ∃ next, st' = update_store store module_id (saved_progress next now) ∧
        (next = max (current_percent
            ((store module_id).getD default_progress_row)) 50 ∨
          next = 100) := by
  unfold watch_video at h
  dsimp only at h
  cases hfind : (build_training_module_payload_for_mentor modules store).find?
      (fun item => item.id == module_id) with
  | none => rw [hfind] at h; cases h
  | some ms =>
    rw [hfind] at h
    dsimp only at h
    split_ifs at h with h1 h2 h3 <;> try cases h
    all_goals exact ⟨ms, rfl, by simpa using h1, _, rfl, by simp⟩

/-- `current_percent` only ever coarsens to 0, 50 or 100. -/
theorem current_percent_cases (progress : MentorTrainingProgress) :
    current_percent progress = 0 ∨ current_percent progress = 50 ∨
      current_percent progress = 100 := by
  unfold current_percent
  split_ifs <;> simp

/-- If a stored row is effectively completed and the store is well formed, the
coarsened current percent is 100. -/
theorem current_percent_of_effectively_completed (store : ProgressStore)
    (module_id : Nat) (hwf : WellFormedStore store)
    (heff : effectively_completed (store module_id) = true) :
    current_percent ((store module_id).getD default_progress_row) = 100 := by
  cases hp : store module_id with
  | none => rw [hp] at heff; cases heff
  | some p =>
    rw [hp] at heff
    unfold effectively_completed at heff
    have h100 : 100 ≤ p.progress_percent := by
      simp only [Bool.or_eq_true, beq_iff_eq, decide_eq_true_eq] at heff
      rcases heff with hs | hd
      · exact (hwf module_id p hp).mp hs
      · exact hd
    simp [hp, current_percent, h100]

theorem getD_mem_takeWhile (p : TrainingModule → Bool) :
    ∀ (l : List TrainingModule) (j i : Nat), j ≤ l.length → i < j →
      (∀ i', i' < j → p (l.getD i' dummyModule) = true) →
      l.getD i dummyModule ∈ l.takeWhile p := by
  intro l
  induction l with
  | nil =>
    intro j i hj hi _
    simp only [List.length_nil, Nat.le_zero] at hj
    omega
  | cons x xs ih =>
    intro j i hj hi hp
    have hx : p x = true := by
      simpa using hp 0 (Nat.lt_of_le_of_lt (Nat.zero_le i) hi)
    cases i with
    | zero => simp [List.takeWhile_cons, hx]
    | succ i' =>
      cases j with
      | zero => omega
      | succ j' =>
        have hmem := ih j' i' (by simpa using hj) (Nat.lt_of_succ_lt_succ hi)
          (fun i'' hi'' => by simpa using hp (i'' + 1) (Nat.succ_lt_succ hi''))
        simp only [List.takeWhile_cons, hx, if_true, List.getD_cons_succ]
        exact List.mem_cons_of_mem x hmem

theorem nodup_ids_getD (modules : List TrainingModule)
    (hids : (modules.map (fun m => m.id)).Nodup) (i j : Nat)
    (hi : i < modules.length) (hj : j < modules.length) (hne : i ≠ j) :
    (modules.getD i dummyModule).id ≠ (modules.getD j dummyModule).id := by
  intro heq
  have hil : i < (modules.map (fun m => m.id)).length := by simpa using hi
  have hjl : j < (modules.map (fun m => m.id)).length := by simpa using hj
  have hget : (modules.map (fun m => m.id)).get ⟨i, hil⟩ =
      (modules.map (fun m => m.id)).get ⟨j, hjl⟩ := by
    simp only [List.get_map]
    rw [← List.getD_eq_get modules dummyModule hi,
      ← List.getD_eq_get modules dummyModule hj]
    exact heq
  have := (List.Nodup.get_inj_iff hids).mp hget
  exact hne (by simpa using congrArg Fin.val this)

theorem apply_watch_event_ok (modules : List TrainingModule)
    (store : ProgressStore) (event : WatchEvent) (st' : ProgressStore)
    (h : watch_video modules store event.module_id event.video_index event.now =
      .ok st') :
    apply_watch_event modules store event = st' := by
  unfold apply_watch_event
  rw [h]

theorem apply_watch_event_error (modules : List TrainingModule)
    (store : ProgressStore) (event : WatchEvent) (err : ApiError)
    (h : watch_video modules store event.module_id event.video_index event.now =
      .error err) :
    apply_watch_event modules store event = store := by
  unfold apply_watch_event
  rw [h]

/-- A successful `watch_video` call preserves both store invariants: written
rows keep status and percent consistent, and the completed set stays a prefix
of the module order. -/
theorem apply_watch_event_invariant (modules : List TrainingModule)
    (store : ProgressStore) (event : WatchEvent)
    (hids : (modules.map (fun m => m.id)).Nodup)
    (hwf : WellFormedStore store) (hpc : PrefixClosed modules store) :
    WellFormedStore (apply_watch_event modules store event) ∧
      PrefixClosed modules (apply_watch_event modules store event) := by
  cases hw : watch_video modules store event.module_id event.video_index
      event.now with
  | error err =>
    rw [apply_watch_event_error _ _ _ _ hw]
    exact ⟨hwf, hpc⟩
  | ok st' =>
    rw [apply_watch_event_ok _ _ _ _ hw]
    obtain ⟨ms, hfind, hlocked, next, hst', hnext⟩ :=
      watch_video_ok_cases _ _ _ _ _ _ hw
    subst hst'
    set tid := event.module_id with htid
    -- The written row is monotone: a completed module stays completed.
    have hmono : effectively_completed (store tid) = true → next = 100 := by
      intro heff
      have hcur := current_percent_of_effectively_completed store tid hwf heff
      rcases hnext with h | h
      · rw [hcur] at h; simpa using h
      · exact h
    constructor
    · intro id p hp
      by_cases hid : id = tid
      · subst hid
        rw [update_store_same] at hp
        cases hp
        exact saved_progress_wellformed next event.now
      · rw [update_store_other _ _ _ _ hid] at hp
        exact hwf id p hp
    · -- Prefix closure of the new store.
      intro i j hij hj heffj
      have hi : i < modules.length := Nat.lt_trans hij hj
      have heff_up : ∀ k, (modules.getD k dummyModule).id = tid →
          effectively_completed
            ((update_store store tid (saved_progress next event.now))
              ((modules.getD k dummyModule).id)) = decide (100 ≤ next) := by
        intro k hk
        rw [hk, update_store_same, effectively_completed_saved]
      have heff_keep : ∀ k, (modules.getD k dummyModule).id ≠ tid →
          effectively_completed
            ((update_store store tid (saved_progress next event.now))
              ((modules.getD k dummyModule).id)) =
            effectively_completed (store ((modules.getD k dummyModule).id)) := by
        intro k hk
        rw [update_store_other _ _ _ _ hk]
      by_cases hjid : (modules.getD j dummyModule).id = tid
      · -- The touched module became (or stayed) completed.
        rw [heff_up j hjid] at heffj
        have hnext100 : (100 : Nat) ≤ next := of_decide_eq_true heffj
        by_cases hiid : (modules.getD i dummyModule).id = tid
        · rw [heff_up i hiid]
          exact heffj
        · rw [heff_keep i hiid]
          by_cases hefft : effectively_completed (store tid) = true
          · exact hpc i j hij hj (by rw [hjid]; exact hefft)
          · -- The module was unlocked through its predecessors; the found
            -- payload entry was not locked, so the take-while prefix of
            -- modules ahead of it is completed.
            unfold build_training_module_payload_for_mentor at hfind
            rw [build_payload_go_find] at hfind
            cases hmfind : modules.find? (fun m => m.id == tid) with
            | none => rw [hmfind] at hfind; cases hfind
            | some mstar =>
              rw [hmfind] at hfind
              simp only [Option.map_some'] at hfind
              have hmsid : mstar.id = tid := by
                have := List.find?_some hmfind
                simpa using this
              have hmseq : payload_entry mstar (store mstar.id)
                  (true && (modules.takeWhile (fun m' => !(m'.id == tid))).all
                    (fun m' => effectively_completed (store m'.id))) = ms := by
                injection hfind
              have hb : (modules.takeWhile (fun m' => !(m'.id == tid))).all
                  (fun m' => effectively_completed (store m'.id)) = true := by
                by_cases hbval : (modules.takeWhile (fun m' => !(m'.id == tid))).all
                    (fun m' => effectively_completed (store m'.id)) = true
                · exact hbval
                · exfalso
                  apply hlocked
                  rw [← hmseq, payload_entry_locked_iff]
                  constructor
                  · rw [hmsid]
                    simpa using hefft
                  · rw [Bool.true_and]
                    simpa using hbval
              -- every index before j has a different id, so the prefix of
              -- modules before j sits inside the take-while prefix
              have hmem : modules.getD i dummyModule ∈
                  modules.takeWhile (fun m' => !(m'.id == tid)) := by
                apply getD_mem_takeWhile _ modules j i (Nat.le_of_lt hj) hij
                intro i' hi'
                have hi'l : i' < modules.length := Nat.lt_trans hi' hj
                have : (modules.getD i' dummyModule).id ≠
                    (modules.getD j dummyModule).id :=
                  nodup_ids_getD modules hids i' j hi'l hj (Nat.ne_of_lt hi')
                rw [hjid] at this
                simpa using this
              have := List.all_eq_true.mp hb _ hmem
              exact this
      · -- Untouched module: fall back to the previous invariant.
        rw [heff_keep j hjid] at heffj
        by_cases hiid : (modules.getD i dummyModule).id = tid
        · rw [heff_up i hiid]
          have : effectively_completed (store ((modules.getD i dummyModule).id))
              = true := hpc i j hij hj heffj
          rw [hiid] at this
          simp [hmono this]
        · rw [heff_keep i hiid]
          exact hpc i j hij hj heffj

theorem all_congr_of_mem {α : Type} (p q : α → Bool) :
    ∀ (l : List α), (∀ x, x ∈ l → p x = q x) → l.all p = l.all q := by
  intro l
  induction l with
  | nil => intro _; rfl
  | cons x xs ih =>
    intro h
    simp only [List.all_cons]
    rw [h x (by simp), ih (fun y hy => h y (by simp [hy]))]

theorem apply_watch_events_invariant (modules : List TrainingModule)
    (events : List WatchEvent)
    (hids : (modules.map (fun m => m.id)).Nodup) :
    WellFormedStore (apply_watch_events modules events) ∧
      PrefixClosed modules (apply_watch_events modules events) := by
  have hgen : ∀ (evs : List WatchEvent) (store : ProgressStore),
      WellFormedStore store → PrefixClosed modules store →
      WellFormedStore (evs.foldl (apply_watch_event modules) store) ∧
        PrefixClosed modules (evs.foldl (apply_watch_event modules) store) := by
    intro evs
    induction evs with
    | nil => intro store hwf hpc; exact ⟨hwf, hpc⟩
    | cons e rest ih =>
      intro store hwf hpc
      obtain ⟨hwf', hpc'⟩ := apply_watch_event_invariant modules store e hids
        hwf hpc
      exact ih _ hwf' hpc'
  refine hgen events empty_store ?_ ?_
  · intro id p hp
    simp [empty_store] at hp
  · intro i j _ _ heff
    simp [empty_store, effectively_completed] at heff

theorem effective_status_eq (modules : List TrainingModule)
    (store : ProgressStore) (k : Nat) (hk : k < modules.length) :
    effective_status modules store k =
      (payload_entry (modules.getD k dummyModule)
        (store ((modules.getD k dummyModule).id))
        ((modules.take k).all
          (fun m => effectively_completed (store m.id)))).training_status := by
  unfold effective_status build_training_module_payload_for_mentor
  rw [build_payload_go_getD store modules true k hk, Bool.true_and]

theorem coverage_select_spec (candidates : List QuizQuestion) :
    ∀ (titles used : List String) (sel : List QuizQuestion)
      (used' : List String),
      coverage_select candidates titles used = some (sel, used') →
      sel.length = titles.length ∧
      (∀ t ∈ titles, ∃ q ∈ sel, q.module_title = t) ∧
      (sel.map (fun q => str_lower q.question)).Nodup ∧
      (∀ k ∈ sel.map (fun q => str_lower q.question), k ∉ used) ∧
      (∀ k, k ∈ used' ↔ k ∈ used ∨
        k ∈ sel.map (fun q => str_lower q.question)) := by
  intro titles
  induction titles with
  | nil =>
    intro used sel used' h
    simp only [coverage_select, Option.some.injEq, Prod.mk.injEq] at h
    obtain ⟨rfl, rfl⟩ := h
    refine ⟨rfl, by simp, by simp, by simp, by simp⟩
  | cons t rest ih =>
    intro used sel used' h
    simp only [coverage_select] at h
    cases hfind : candidates.find? (fun item =>
        item.module_title == t &&
          !(used.contains (str_lower item.question))) with
    | none => rw [hfind] at h; cases h
    | some q =>
      rw [hfind] at h
      dsimp only at h
      cases hrec : coverage_select candidates rest
          (str_lower q.question :: used) with
      | none => rw [hrec] at h; cases h
      | some pr =>
        obtain ⟨sel1, used1⟩ := pr
        rw [hrec] at h
        simp only [Option.some.injEq, Prod.mk.injEq] at h
        obtain ⟨rfl, rfl⟩ := h
        obtain ⟨hlen, hcov, hnd, hdisj, hused⟩ := ih _ _ _ hrec
        have hq := List.find?_some hfind
        simp only [Bool.and_eq_true, Bool.not_eq_true', beq_iff_eq] at hq
        obtain ⟨hqt, hquse⟩ := hq
        have hqnotin : str_lower q.question ∉ used := by
          simpa using hquse
        refine ⟨by simp [hlen], ?_, ?_, ?_, ?_⟩
        · intro t' ht'
          rcases List.mem_cons.mp ht' with rfl | ht'
          · exact ⟨q, List.mem_cons_self _ _, hqt⟩
          · obtain ⟨q', hq', hq't⟩ := hcov t' ht'
            exact ⟨q', List.mem_cons_of_mem _ hq', hq't⟩
        · simp only [List.map_cons, List.nodup_cons]
          refine ⟨?_, hnd⟩
          intro hmem
          exact hdisj _ hmem (List.mem_cons_self _ _)
        · intro k hk
          simp only [List.map_cons, List.mem_cons] at hk
          rcases hk with rfl | hk
          · exact hqnotin
          · intro hku
            exact hdisj _ hk (List.mem_cons_of_mem _ hku)
        · intro k
          rw [hused k]
          simp only [List.map_cons, List.mem_cons]
          tauto

theorem fill_select_spec (total : Nat) :
    ∀ (candidates selected : List QuizQuestion) (used : List String),
      (∀ q ∈ selected, str_lower q.question ∈ used) →
      (selected.map (fun q => str_lower q.question)).Nodup →
      ∃ extra, fill_select total candidates selected used = selected ++ extra ∧
        ((selected ++ extra).map (fun q => str_lower q.question)).Nodup := by
  intro candidates
  induction candidates with
  | nil =>
    intro selected used _ hnd
    exact ⟨[], by simp [fill_select], by simpa using hnd⟩
  | cons item rest ih =>
    intro selected used hkeys hnd
    simp only [fill_select]
    by_cases hc : used.contains (str_lower item.question) = true
    · rw [if_pos hc]
      exact ih selected used hkeys hnd
    · rw [if_neg hc]
      have hnotin : str_lower item.question ∉ used := by
        intro hmem
        exact hc (List.elem_iff.mpr hmem)
      have hnd' : ((selected ++ [item]).map
          (fun q => str_lower q.question)).Nodup := by
        rw [List.map_append]
        rw [List.nodup_append]
        refine ⟨hnd, by simp, ?_⟩
        intro k hk
        simp only [List.map_cons, List.map_nil, List.mem_singleton]
        intro hkeq
        subst hkeq
        obtain ⟨q, hq, hqk⟩ := List.mem_map.mp hk
        apply hnotin
        rw [← hqk]
        exact hkeys q hq
      by_cases hfull : total ≤ (selected ++ [item]).length
      · rw [if_pos hfull]
        exact ⟨[item], rfl, hnd'⟩
      · rw [if_neg hfull]
        have hkeys' : ∀ q ∈ selected ++ [item],
            str_lower q.question ∈ str_lower item.question :: used := by
          intro q hq
          rcases List.mem_append.mp hq with hq | hq
          · exact List.mem_cons_of_mem _ (hkeys q hq)
          · simp only [List.mem_singleton] at hq
            subst hq
            exact List.mem_cons_self _ _
        obtain ⟨extra, heq, hnd2⟩ := ih (selected ++ [item])
          (str_lower item.question :: used) hkeys' hnd'
        refine ⟨[item] ++ extra, ?_, ?_⟩
        · rw [heq, List.append_assoc]
        · rw [← List.append_assoc]
          exact hnd2

theorem select_ok_properties (candidates : List QuizQuestion)
    (modules : List TrainingModule) (total : Nat) (qs : List QuizQuestion)
    (h : _select_questions_for_quiz candidates modules total = .ok qs) :
    qs.length = total ∧
    (qs.map (fun q => str_lower q.question)).Nodup ∧
    (modules.length ≤ total →
      ∀ t ∈ modules.map (fun m => m.title), ∃ q ∈ qs, q.module_title = t) := by
  unfold _select_questions_for_quiz at h
  dsimp only at h
  by_cases hguard : modules.map (fun m => m.title) ≠ [] ∧
      (modules.map (fun m => m.title)).length ≤ total
  · rw [if_pos hguard] at h
    cases hcov : coverage_select candidates (modules.map (fun m => m.title))
        [] with
    | none => rw [hcov] at h; cases h
    | some pr =>
      obtain ⟨sel0, used0⟩ := pr
      rw [hcov] at h
      dsimp only at h
      obtain ⟨hlen0, hcov0, hnd0, _, hused0⟩ :=
        coverage_select_spec candidates _ _ _ _ hcov
      have hkeys0 : ∀ q ∈ sel0, str_lower q.question ∈ used0 := by
        intro q hq
        exact (hused0 _).mpr (Or.inr (List.mem_map.mpr ⟨q, hq, rfl⟩))
      obtain ⟨extra, heq, hnd⟩ := fill_select_spec total candidates sel0 used0
        hkeys0 hnd0
      rw [heq] at h
      by_cases hlt : (sel0 ++ extra).length < total
      · rw [if_pos hlt] at h; cases h
      · rw [if_neg hlt] at h
        injection h with h
        subst h
        push_neg at hlt
        refine ⟨?_, ?_, ?_⟩
        · rw [List.length_take]
          omega
        · rw [List.map_take ..]
          exact List.Nodup.sublist (List.take_sublist _ _) hnd
        · intro _ t ht
          obtain ⟨q, hq, hqt⟩ := hcov0 t ht
          refine ⟨q, ?_, hqt⟩
          rw [List.take_append_eq_append_take,
            List.take_of_length_le (by omega : sel0.length ≤ total)]
          exact List.mem_append_left _ hq
  · rw [if_neg hguard] at h
    dsimp only at h
    obtain ⟨extra, heq, hnd⟩ := fill_select_spec total candidates [] []
      (by simp) (by simp)
    rw [heq] at h
    by_cases hlt : (([] : List QuizQuestion) ++ extra).length < total
    · rw [if_pos hlt] at h; cases h
    · rw [if_neg hlt] at h
      injection h with h
      subst h
      push_neg at hlt
      refine ⟨?_, ?_, ?_⟩
      · rw [List.length_take]
        omega
      · rw [List.map_take ..]
        exact List.Nodup.sublist (List.take_sublist _ _) hnd
      · intro htot t ht
        exfalso
        apply hguard
        constructor
        · intro hnil
          rw [hnil] at ht
          cases ht
        · simpa using htot

theorem generate_rounds_cases (modules : List TrainingModule)
    (source : GenerationSource)
    (shuffle : List QuizQuestion → List QuizQuestion)
    (total_questions : Nat)
    (hsh : ∀ l, List.Perm (shuffle l) l) :
    ∀ (fuel : Nat) (all_candidates : List QuizQuestion)
      (seen_questions : List String),
      (∃ qs, generate_rounds modules source shuffle total_questions fuel
          all_candidates seen_questions = .success qs ∧
        qs.length = total_questions ∧
        (qs.map (fun q => str_lower q.question)).Nodup ∧
        (modules.length ≤ total_questions →
          ∀ t ∈ modules.map (fun m => m.title), ∃ q ∈ qs,
            q.module_title = t)) ∨
      (∃ n, generate_rounds modules source shuffle total_questions fuel
          all_candidates seen_questions = .exhausted n) := by
  intro fuel
  induction fuel with
  | zero =>
    intro all_candidates seen_questions
    exact Or.inr ⟨all_candidates.length, rfl⟩
  | succ fuel ih =>
    intro all_candidates seen_questions
    have hstep : ∀ merged : List QuizQuestion × List String,
        (∃ qs, (match _select_questions_for_quiz merged.1 modules
              total_questions with
            | .ok questions => GenResult.success (shuffle questions)
            | .error _ => generate_rounds modules source shuffle
                total_questions fuel merged.1 merged.2) = .success qs ∧
          qs.length = total_questions ∧
          (qs.map (fun q => str_lower q.question)).Nodup ∧
          (modules.length ≤ total_questions →
            ∀ t ∈ modules.map (fun m => m.title), ∃ q ∈ qs,
              q.module_title = t)) ∨
        (∃ n, (match _select_questions_for_quiz merged.1 modules
              total_questions with
            | .ok questions => GenResult.success (shuffle questions)
            | .error _ => generate_rounds modules source shuffle
                total_questions fuel merged.1 merged.2) = .exhausted n) := by
      intro merged
      cases hsel : _select_questions_for_quiz merged.1 modules
          total_questions with
      | ok questions =>
        left
        obtain ⟨hlen, hnd, hcov⟩ := select_ok_properties _ _ _ _ hsel
        refine ⟨shuffle questions, rfl, ?_, ?_, ?_⟩
        · rw [(hsh questions).length_eq, hlen]
        · exact (((hsh questions).map
            (fun q => str_lower q.question)).nodup_iff).mpr hnd
        · intro htot t ht
          obtain ⟨q, hq, hqt⟩ := hcov htot t ht
          exact ⟨q, ((hsh questions).mem_iff).mpr hq, hqt⟩
      | error e =>
        dsimp only
        exact ih merged.1 merged.2
    rw [generate_rounds]
    exact hstep _

theorem zip_filter_length_eq_range {α β : Type} (p : α → β → Bool)
    (da : α) (db : β) :
    ∀ (as : List α) (bs : List β), as.length = bs.length →
      ((as.zip bs).filter (fun x => p x.1 x.2)).length =
        ((List.range as.length).filter
          (fun i => p (as.getD i da) (bs.getD i db))).length := by
  intro as
  induction as with
  | nil =>
    intro bs h
    simp
  | cons a as ih =>
    intro bs h
    cases bs with
    | nil => simp at h
    | cons b bs =>
      have h' : as.length = bs.length := by simpa using h
      simp only [List.zip_cons_cons, List.filter_cons, List.length_cons]
      rw [List.range_succ_eq_map]
      simp only [List.filter_cons, List.getD_cons_zero]
      rw [List.map_filter Nat.succ (List.range as.length)]
      have hcongr : (List.range as.length).filter
          ((fun i => p ((a :: as).getD i da) ((b :: bs).getD i db)) ∘
            Nat.succ) =
          (List.range as.length).filter
            (fun i => p (as.getD i da) (bs.getD i db)) := by
        apply List.filter_congr'
        intro x _
        rfl
      rw [hcongr]
      split_ifs <;> simp [ih bs h']

/-- C1: when no stage is rejected and identity, training and the final-approval
signal are all `completed`, `derive_current_status` returns `completed`
regardless of `contact_status` (and of `application_status`). -/
theorem C1_dominance_completed (application_status contact_status : String)
    (happ : application_status ≠ "rejected")
    (hcontact : contact_status ≠ "rejected") :
    derive_current_status application_status "completed" contact_status
      "completed" "completed" = "completed" := by
  simp [derive_current_status, happ, hcontact]

/-- C1 witness: the spec's concrete example — application/identity/training
(and final approval) completed, contact pending — yields `completed`. -/
theorem C1_dominance_completed_witness :
    derive_current_status "completed" "completed" "pending" "completed"
      "completed" = "completed" :=
  C1_dominance_completed "completed" "pending" (by decide) (by decide)

/-- C4: the training status the aggregator derives from a module payload plus
quiz flag equals the spec's case list: `pending` on an empty payload;
`completed` when every module is completed and the quiz is passed; `in_review`
when every module is completed but the quiz is not passed; `in_review` when
some module has nonzero progress; `pending` otherwise. -/
theorem C4_training_status_cases (module_payload : List ModuleState)
    (quiz_passed : Bool) :
    sync_training_status_from_payload module_payload quiz_passed =
      spec_derive_training_status module_payload quiz_passed := by
  unfold sync_training_status_from_payload
    derive_training_status_from_module_payload spec_derive_training_status
  rcases module_payload with _ | ⟨head, tail⟩ <;> cases quiz_passed <;>
    (simp; try (split_ifs <;> simp_all))

/-- C2: for every active-module list and every sequence of generation-source
responses, `generate(active_modules, total_questions=15)` either succeeds with
exactly 15 questions whose lower-cased texts are pairwise distinct, covering
every active module whenever `15 ≥ number_of_active_modules`, or fails after
the 5 widening rounds with `GenerationExhausted` carrying the count of valid
unique candidates gathered. -/
theorem C2_generate_success_or_exhausted (modules : List TrainingModule)
    (source : GenerationSource)
    (shuffle : List QuizQuestion → List QuizQuestion)
    (hsh : ∀ l, List.Perm (shuffle l) l) :
    (∃ qs, generate_training_quiz_questions modules source shuffle 15 =
        .success qs ∧
      qs.length = 15 ∧
      (qs.map (fun q => str_lower q.question)).Nodup ∧
      (modules.length ≤ 15 →
        ∀ m ∈ modules, ∃ q ∈ qs, q.module_title = m.title)) ∨
    (∃ n, generate_training_quiz_questions modules source shuffle 15 =
      .exhausted n) := by
  unfold generate_training_quiz_questions
  rw [if_neg (by decide)]
  rcases generate_rounds_cases modules source shuffle 15 hsh 5 [] [] with
    ⟨qs, heq, hlen, hnd, hcov⟩ | ⟨n, heq⟩
  · left
    refine ⟨qs, heq, hlen, hnd, ?_⟩
    intro htot m hm
    exact hcov htot m.title (List.mem_map.mpr ⟨m, hm, rfl⟩)
  · right
    exact ⟨n, heq⟩

/-- C2 witness: with no active modules and an empty source every round fails
selection, so the call exhausts with zero gathered candidates. -/
theorem C2_generate_success_or_exhausted_witness :
    (∃ qs, generate_training_quiz_questions [] (fun _ _ _ => [])
        (fun l => l) 15 = .success qs ∧ qs.length = 15 ∧
      (qs.map (fun q => str_lower q.question)).Nodup ∧
      (([] : List TrainingModule).length ≤ 15 →
        ∀ m ∈ ([] : List TrainingModule), ∃ q ∈ qs,
          q.module_title = m.title)) ∨
    (∃ n, generate_training_quiz_questions [] (fun _ _ _ => [])
        (fun l => l) 15 = .exhausted n) :=
  C2_generate_success_or_exhausted [] (fun _ _ _ => []) (fun l => l)
    (fun l => List.Perm.refl l)

/-- C7: `selected_answers` must be a list; entries beyond the question count
are ignored; non-integer or negative entries normalize to unanswered; the
score counts the indices whose normalized answer equals the question's
correct option index; `0 ≤ score ≤ len(questions)` and the pass decision is
`score ≥ 7` under the fixed 7-pass-mark configuration. -/
theorem C7_grading (questions : List QuizQuestion)
    (selected : List (Option Int)) :
    evaluate_quiz_attempt questions none =
      .error "selected_answers must be a list." ∧
    evaluate_quiz_attempt questions (some selected) =
      .ok (grade_quiz questions selected) ∧
    (grade_quiz questions selected).2.length = questions.length ∧
    grade_quiz questions (selected.take questions.length) =
      grade_quiz questions selected ∧
    (∀ i, i < questions.length →
      (grade_quiz questions selected).2.getD i none =
        (match selected.get? i with
         | some (some v) => if 0 ≤ v then some v else none
         | some none => none
         | none => none)) ∧
    (grade_quiz questions selected).1 =
      ((List.range questions.length).filter (fun i =>
        (grade_quiz questions selected).2.getD i none ==
          some ((questions.getD i dummyQuestion).correct_option_index :
            Int))).length ∧
    (grade_quiz questions selected).1 ≤ questions.length ∧
    ((TRAINING_QUIZ_PASS_MARK ≤ (grade_quiz questions selected).1) ↔
      7 ≤ (grade_quiz questions selected).1) := by
  refine ⟨rfl, rfl, ?_, ?_, ?_, ?_, ?_, Iff.rfl⟩
  · simp [grade_quiz]
  · unfold grade_quiz
    rw [List.take_take, Nat.min_self]
  · intro i hi
    unfold grade_quiz
    dsimp only
    rw [List.getD_eq_getElem _ none (by simpa using hi), List.getElem_map,
      List.getElem_range, List.get?_take hi]
  · unfold grade_quiz
    dsimp only
    rw [zip_filter_length_eq_range
      (fun a q => match a with
        | some v => v == (q.correct_option_index : Int)
        | none => false) none dummyQuestion _ questions (by simp)]
    simp only [List.length_map, List.length_range]
    apply congrArg
    apply List.filter_congr'
    intro i _
    cases ((List.range questions.length).map (fun index =>
        match (selected.take questions.length).get? index with
        | some (some parsed) => if 0 ≤ parsed then some parsed else none
        | some none => none
        | none => none)).getD i none with
    | none => rfl
    | some v => rfl
  · unfold grade_quiz
    dsimp only
    calc ((((List.range questions.length).map _).zip questions).filter
          _).length
        ≤ (((List.range questions.length).map (fun index =>
            match (selected.take questions.length).get? index with
            | some (some parsed) => if 0 ≤ parsed then some parsed else none
            | some none => none
            | none => none)).zip questions).length :=
          List.length_filter_le _ _
      _ ≤ questions.length := by
          rw [List.length_zip]
          simp

/-- C7 witness: a concrete single-question grading run. -/
theorem C7_grading_witness :
    evaluate_quiz_attempt [⟨"q one", ["a", "b", "c", "d"], 2, "M"⟩] none =
      .error "selected_answers must be a list." ∧
    evaluate_quiz_attempt [⟨"q one", ["a", "b", "c", "d"], 2, "M"⟩]
      (some [some 2, some 5, none, some (-1)]) =
      .ok (grade_quiz [⟨"q one", ["a", "b", "c", "d"], 2, "M"⟩]
        [some 2, some 5, none, some (-1)]) ∧
    (grade_quiz [⟨"q one", ["a", "b", "c", "d"], 2, "M"⟩]
      [some 2, some 5, none, some (-1)]).2.length =
      ([⟨"q one", ["a", "b", "c", "d"], 2, "M"⟩] :
        List QuizQuestion).length ∧
    grade_quiz [⟨"q one", ["a", "b", "c", "d"], 2, "M"⟩]
      ([some 2, some 5, none, some (-1)].take
        ([⟨"q one", ["a", "b", "c", "d"], 2, "M"⟩] :
          List QuizQuestion).length) =
      grade_quiz [⟨"q one", ["a", "b", "c", "d"], 2, "M"⟩]
        [some 2, some 5, none, some (-1)] ∧
    (∀ i, i < ([⟨"q one", ["a", "b", "c", "d"], 2, "M"⟩] :
        List QuizQuestion).length →
      (grade_quiz [⟨"q one", ["a", "b", "c", "d"], 2, "M"⟩]
        [some 2, some 5, none, some (-1)]).2.getD i none =
        (match [some 2, some 5, none, some (-1)].get? i with
         | some (some v) => if 0 ≤ v then some v else none
         | some none => none
         | none => none)) ∧
    (grade_quiz [⟨"q one", ["a", "b", "c", "d"], 2, "M"⟩]
      [some 2, some 5, none, some (-1)]).1 =
      ((List.range ([⟨"q one", ["a", "b", "c", "d"], 2, "M"⟩] :
          List QuizQuestion).length).filter (fun i =>
        (grade_quiz [⟨"q one", ["a", "b", "c", "d"], 2, "M"⟩]
          [some 2, some 5, none, some (-1)]).2.getD i none ==
          some ((([⟨"q one", ["a", "b", "c", "d"], 2, "M"⟩] :
            List QuizQuestion).getD i
              dummyQuestion).correct_option_index : Int))).length ∧
    (grade_quiz [⟨"q one", ["a", "b", "c", "d"], 2, "M"⟩]
      [some 2, some 5, none, some (-1)]).1 ≤
      ([⟨"q one", ["a", "b", "c", "d"], 2, "M"⟩] :
        List QuizQuestion).length ∧
    ((TRAINING_QUIZ_PASS_MARK ≤
        (grade_quiz [⟨"q one", ["a", "b", "c", "d"], 2, "M"⟩]
          [some 2, some 5, none, some (-1)]).1) ↔
      7 ≤ (grade_quiz [⟨"q one", ["a", "b", "c", "d"], 2, "M"⟩]
        [some 2, some 5, none, some (-1)]).1) :=
  C7_grading [⟨"q one", ["a", "b", "c", "d"], 2, "M"⟩]
    [some 2, some 5, none, some (-1)]

/-- C3 counterexample: `generate_training_quiz_questions` takes no mentor and
no previous-attempt signature, so with a source that answers the same way
twice (yet can produce a second distinct valid set from its later rounds),
two consecutive calls succeed with identical signatures — the claim's
in-generator freshness comparison does not exist in the code. -/
theorem C3_counterexample_generate_repeats :
    gen_success (generate_training_quiz_questions cexModules cexSource
      (fun l => l) 3) = true ∧
    gen_questions (generate_training_quiz_questions cexModules cexSource
      (fun l => l) 3) =
      gen_questions (generate_training_quiz_questions cexModules cexSource
        (fun l => l) 3) ∧
    quiz_questions_signature (gen_questions
      (generate_training_quiz_questions cexModules cexSource
        (fun l => l) 3)) =
      quiz_questions_signature (gen_questions
        (generate_training_quiz_questions cexModules cexSource
          (fun l => l) 3)) ∧
    gen_success (generate_training_quiz_questions cexModules cexShiftedSource
      (fun l => l) 3) = true ∧
    quiz_questions_signature (gen_questions
      (generate_training_quiz_questions cexModules cexShiftedSource
        (fun l => l) 3)) ≠
      quiz_questions_signature (gen_questions
        (generate_training_quiz_questions cexModules cexSource
          (fun l => l) 3)) :=
  ⟨by decide, rfl, rfl, by decide, by decide⟩

/-- C3 (amended): the signature comparison lives in `quiz_start`, not in the
generator: `quiz_start` regenerates up to 3 times while the produced
signature equals the most recent non-pending attempt's and answers
`ServiceUnavailable` if the last set is still identical, so a persisted
attempt's signature always differs from the latest resolved attempt's. -/
theorem C3_freshness_in_quiz_start (modules : List TrainingModule)
    (sources : Nat → GenerationSource)
    (shuffles : Nat → List QuizQuestion → List QuizQuestion)
    (latest_signature : Option (List SigEntry)) (qs : List QuizQuestion)
    (h : quiz_start_generation modules sources shuffles latest_signature =
      .ok qs) :
    ∀ sig0, latest_signature = some sig0 →
      quiz_questions_signature qs ≠ sig0 := by
  intro sig0 hsig
  subst hsig
  unfold quiz_start_generation at h
  cases hloop : quiz_start_retry_loop modules sources shuffles (some sig0)
      3 0 [] with
  | error e => rw [hloop] at h; cases h
  | ok questions =>
    rw [hloop] at h
    dsimp only at h
    by_cases heq : quiz_questions_signature questions = sig0
    · rw [if_pos heq] at h
      cases h
    · rw [if_neg heq] at h
      injection h with h
      subst h
      exact heq

/-- C3 witness: a concrete start against a resolved attempt with an empty
signature persists a set whose signature differs from it. -/
theorem C3_freshness_in_quiz_start_witness :
    quiz_start_generation cexModules (fun _ => cexBigSource)
      (fun _ => fun l => l) (some []) = .ok cexBigSet ∧
    quiz_questions_signature cexBigSet ≠ ([] : List SigEntry) :=
  ⟨by decide, C3_freshness_in_quiz_start cexModules (fun _ => cexBigSource)
    (fun _ => fun l => l) (some []) cexBigSet (by decide) [] rfl⟩

/-- C5: for every ordered module list (with distinct ids) and every sequence
of watch events replayed from a fresh mentor, the computed effective training
state satisfies: a module is `completed` iff its stored progress is
`completed` or has `progress_percent ≥ 100`; it is `in_progress` iff it is
not completed and all preceding modules are effectively completed; otherwise
it is `locked`; and module `k+1` is `in_progress`/`completed` only if module
`k` is effectively completed. -/
theorem C5_sequential_unlock (modules : List TrainingModule)
    (events : List WatchEvent)
    (hids : (modules.map (fun m => m.id)).Nodup) (k : Nat)
    (hk : k < modules.length) :
    (effective_status modules (apply_watch_events modules events) k =
        "completed" ↔
      effectively_completed ((apply_watch_events modules events)
        ((modules.getD k dummyModule).id)) = true) ∧
    (effective_status modules (apply_watch_events modules events) k =
        "in_progress" ↔
      (effectively_completed ((apply_watch_events modules events)
          ((modules.getD k dummyModule).id)) = false ∧
        (modules.take k).all (fun m => effectively_completed
          ((apply_watch_events modules events) m.id)) = true)) ∧
    (effective_status modules (apply_watch_events modules events) k =
        "locked" ↔
      (effectively_completed ((apply_watch_events modules events)
          ((modules.getD k dummyModule).id)) = false ∧
        (modules.take k).all (fun m => effectively_completed
          ((apply_watch_events modules events) m.id)) = false)) ∧
    (k + 1 < modules.length →
      effective_status modules (apply_watch_events modules events) (k + 1) ≠
        "locked" →
      effective_status modules (apply_watch_events modules events) k =
        "completed") := by
  set store := apply_watch_events modules events with hst
  have h1 := effective_status_eq modules store k hk
  refine ⟨?_, ?_, ?_, ?_⟩
  · rw [h1]
    exact payload_entry_completed_iff _ _ _
  · rw [h1]
    exact payload_entry_in_progress_iff _ _ _
  · rw [h1]
    exact payload_entry_locked_iff _ _ _
  · intro hk1 hnl
    obtain ⟨hwf, hpc⟩ := apply_watch_events_invariant modules events hids
    have h2 := effective_status_eq modules store (k + 1) hk1
    have hcases : effectively_completed
          (store ((modules.getD (k + 1) dummyModule).id)) = true ∨
        (modules.take (k + 1)).all
          (fun m => effectively_completed (store m.id)) = true := by
      by_contra hcon
      push_neg at hcon
      obtain ⟨ha, hb⟩ := hcon
      apply hnl
      rw [h2, payload_entry_locked_iff]
      exact ⟨by simpa using ha, by simpa using hb⟩
    have heffk : effectively_completed
        (store ((modules.getD k dummyModule).id)) = true := by
      rcases hcases with h | h
      · exact hpc k (k + 1) (Nat.lt_succ_self k) hk1 h
      · have hkt : k < (modules.take (k + 1)).length := by
          simp only [List.length_take]
          omega
        have hgd : (modules.take (k + 1)).getD k dummyModule =
            modules.getD k dummyModule := by
          rw [List.getD_eq_getElem _ _ hkt, List.getD_eq_getElem _ _ hk]
          exact List.getElem_take modules
        have hmem : modules.getD k dummyModule ∈ modules.take (k + 1) := by
          rw [← hgd, List.getD_eq_getElem _ _ hkt]
          exact List.getElem_mem hkt
        exact List.all_eq_true.mp h _ hmem
    rw [h1, payload_entry_completed_iff]
    exact heffk

/-- C5 witness: two modules watched in order; checked at index 0 after a
concrete event replay. -/
theorem C5_sequential_unlock_witness :
    ((([⟨1, "A"⟩, ⟨2, "B"⟩] : List TrainingModule).map
        (fun m => m.id)).Nodup ∧ 0 < 2) ∧
    ((effective_status [⟨1, "A"⟩, ⟨2, "B"⟩]
        (apply_watch_events [⟨1, "A"⟩, ⟨2, "B"⟩] [⟨1, 1, 10⟩, ⟨1, 2, 11⟩, ⟨2, 1, 12⟩]) 0 =
        "completed" ↔
      effectively_completed ((apply_watch_events [⟨1, "A"⟩, ⟨2, "B"⟩]
          [⟨1, 1, 10⟩, ⟨1, 2, 11⟩, ⟨2, 1, 12⟩])
        ((([⟨1, "A"⟩, ⟨2, "B"⟩] : List TrainingModule).getD 0
          dummyModule).id)) = true) ∧
    (effective_status [⟨1, "A"⟩, ⟨2, "B"⟩]
        (apply_watch_events [⟨1, "A"⟩, ⟨2, "B"⟩] [⟨1, 1, 10⟩, ⟨1, 2, 11⟩, ⟨2, 1, 12⟩]) 0 =
        "in_progress" ↔
      (effectively_completed ((apply_watch_events [⟨1, "A"⟩, ⟨2, "B"⟩]
          [⟨1, 1, 10⟩, ⟨1, 2, 11⟩, ⟨2, 1, 12⟩])
          ((([⟨1, "A"⟩, ⟨2, "B"⟩] : List TrainingModule).getD 0
            dummyModule).id)) = false ∧
        (([⟨1, "A"⟩, ⟨2, "B"⟩] : List TrainingModule).take 0).all
          (fun m => effectively_completed
            ((apply_watch_events [⟨1, "A"⟩, ⟨2, "B"⟩]
              [⟨1, 1, 10⟩, ⟨1, 2, 11⟩, ⟨2, 1, 12⟩]) m.id)) = true)) ∧
    (effective_status [⟨1, "A"⟩, ⟨2, "B"⟩]
        (apply_watch_events [⟨1, "A"⟩, ⟨2, "B"⟩] [⟨1, 1, 10⟩, ⟨1, 2, 11⟩, ⟨2, 1, 12⟩]) 0 =
        "locked" ↔
      (effectively_completed ((apply_watch_events [⟨1, "A"⟩, ⟨2, "B"⟩]
          [⟨1, 1, 10⟩, ⟨1, 2, 11⟩, ⟨2, 1, 12⟩])
          ((([⟨1, "A"⟩, ⟨2, "B"⟩] : List TrainingModule).getD 0
            dummyModule).id)) = false ∧
        (([⟨1, "A"⟩, ⟨2, "B"⟩] : List TrainingModule).take 0).all
          (fun m => effectively_completed
            ((apply_watch_events [⟨1, "A"⟩, ⟨2, "B"⟩]
              [⟨1, 1, 10⟩, ⟨1, 2, 11⟩, ⟨2, 1, 12⟩]) m.id)) = false)) ∧
    (0 + 1 < ([⟨1, "A"⟩, ⟨2, "B"⟩] : List TrainingModule).length →
      effective_status [⟨1, "A"⟩, ⟨2, "B"⟩]
        (apply_watch_events [⟨1, "A"⟩, ⟨2, "B"⟩] [⟨1, 1, 10⟩, ⟨1, 2, 11⟩, ⟨2, 1, 12⟩])
        (0 + 1) ≠ "locked" →
      effective_status [⟨1, "A"⟩, ⟨2, "B"⟩]
        (apply_watch_events [⟨1, "A"⟩, ⟨2, "B"⟩] [⟨1, 1, 10⟩, ⟨1, 2, 11⟩, ⟨2, 1, 12⟩]) 0 =
        "completed")) :=
  ⟨⟨by decide, by decide⟩,
    C5_sequential_unlock [⟨1, "A"⟩, ⟨2, "B"⟩] [⟨1, 1, 10⟩, ⟨1, 2, 11⟩, ⟨2, 1, 12⟩]
      (by decide) 0 (by decide)⟩

theorem watch_video_unfold_found (modules : List TrainingModule)
    (store : ProgressStore) (module_id v now : Nat) (ms : ModuleState)
    (hfind : (build_training_module_payload_for_mentor modules store).find?
      (fun item => item.id == module_id) = some ms) :
    watch_video modules store module_id v now =
      (if ms.training_status == "locked" then .error .conflict
       else if v == 1 then
        .ok (update_store store module_id (saved_progress
          (max (current_percent ((store module_id).getD default_progress_row))
            50) now))
       else if current_percent ((store module_id).getD default_progress_row) <
          50 then .error .invalidRequest
       else .ok (update_store store module_id (saved_progress 100 now))) := by
  unfold watch_video
  dsimp only
  rw [hfind]

/-- C6 counterexample: replaying video 1 on a module whose progress is already
100 leaves the row `completed` — the claim's "video_index = 1 … status
in_progress" fails there. -/
theorem C6_counterexample_video1_completed :
    watch_result_row (watch_video [⟨1, "M"⟩] c6_store 1 1 5) 1 =
      some (some (⟨"completed", 100, some 5⟩ : MentorTrainingProgress)) ∧
    "completed" ≠ "in_progress" := by
  constructor
  · decide
  · decide

/-- C6 (amended): `record_watch` fails with `Conflict` when the module's
effective state is `locked`; video 1 sets progress to `max(current, 50)` with
status `in_progress` unless that progress is 100 (module already completed),
in which case the row stays `completed`; video 2 fails with `InvalidRequest`
when current progress is below 50 and otherwise writes progress 100, status
`completed`, stamping `completed_at`; hence on a well-formed store watching
video 1 and then video 2 always ends with progress 100 and status
`completed`. -/
theorem C6_record_watch (modules : List TrainingModule) (store : ProgressStore)
    (module_id now now2 : Nat) (ms : ModuleState)
    (hfind : (build_training_module_payload_for_mentor modules store).find?
      (fun item => item.id == module_id) = some ms) :
    (ms.training_status = "locked" → ∀ v,
      watch_video modules store module_id v now = .error .conflict) ∧
    (ms.training_status ≠ "locked" →
      (watch_video modules store module_id 1 now =
        .ok (update_store store module_id (saved_progress
          (max (current_percent ((store module_id).getD default_progress_row))
            50) now)) ∧
        (saved_progress
          (max (current_percent ((store module_id).getD default_progress_row))
            50) now).progress_percent =
          max (current_percent ((store module_id).getD default_progress_row))
            50 ∧
        (saved_progress
          (max (current_percent ((store module_id).getD default_progress_row))
            50) now).status =
          (if 100 ≤ max (current_percent
              ((store module_id).getD default_progress_row)) 50
            then "completed" else "in_progress")) ∧
      (current_percent ((store module_id).getD default_progress_row) < 50 →
        watch_video modules store module_id 2 now = .error .invalidRequest) ∧
      (50 ≤ current_percent ((store module_id).getD default_progress_row) →
        watch_video modules store module_id 2 now =
          .ok (update_store store module_id (saved_progress 100 now)) ∧
        (saved_progress 100 now).progress_percent = 100 ∧
        (saved_progress 100 now).status = "completed" ∧
        (saved_progress 100 now).completed_at = some now) ∧
      (WellFormedStore store →
        ∀ st1, watch_video modules store module_id 1 now = .ok st1 →
          watch_video modules st1 module_id 2 now2 =
            .ok (update_store st1 module_id (saved_progress 100 now2)) ∧
          update_store st1 module_id (saved_progress 100 now2) module_id =
            some (⟨"completed", 100, some now2⟩ : MentorTrainingProgress))) := by
  have hunf := watch_video_unfold_found modules store module_id
  constructor
  · intro hlock v
    rw [hunf v now ms hfind, if_pos (by simp [hlock])]
  · intro hnl
    have hnlock : (ms.training_status == "locked") = false := by
      simpa using hnl
    refine ⟨⟨?_, rfl, rfl⟩, ?_, ?_, ?_⟩
    · rw [hunf 1 now ms hfind, if_neg (by simp [hnlock]), if_pos (by decide)]
    · intro hc
      rw [hunf 2 now ms hfind, if_neg (by simp [hnlock]),
        if_neg (by decide), if_pos hc]
    · intro hc
      refine ⟨?_, rfl, rfl, rfl⟩
      rw [hunf 2 now ms hfind, if_neg (by simp [hnlock]),
        if_neg (by decide), if_neg (by omega)]
    · intro hwf st1 hok1
      have h1 : watch_video modules store module_id 1 now =
          .ok (update_store store module_id (saved_progress
            (max (current_percent
              ((store module_id).getD default_progress_row)) 50) now)) := by
        rw [hunf 1 now ms hfind, if_neg (by simp [hnlock]), if_pos (by decide)]
      have hst1 : st1 = update_store store module_id (saved_progress
          (max (current_percent
            ((store module_id).getD default_progress_row)) 50) now) := by
        rw [h1] at hok1
        injection hok1 with h
        exact h.symm
      have hfind0 : ∀ st : ProgressStore,
          (build_training_module_payload_for_mentor modules st).find?
            (fun item => item.id == module_id) =
          (modules.find? (fun m => m.id == module_id)).map
            (fun m => payload_entry m (st m.id)
              (true && (modules.takeWhile
                  (fun m' => !(m'.id == module_id))).all
                (fun m' => effectively_completed (st m'.id)))) := by
        intro st
        unfold build_training_module_payload_for_mentor
        exact build_payload_go_find st module_id modules true
      have hfind' := hfind
      rw [hfind0 store] at hfind'
      cases hmf : modules.find? (fun m => m.id == module_id) with
      | none => rw [hmf] at hfind'; cases hfind'
      | some mstar =>
        rw [hmf] at hfind'
        simp only [Option.map_some'] at hfind'
        have hmsid : mstar.id = module_id := by
          simpa using List.find?_some hmf
        have hmseq : payload_entry mstar (store mstar.id)
            (true && (modules.takeWhile
                (fun m' => !(m'.id == module_id))).all
              (fun m' => effectively_completed (store m'.id))) = ms := by
          injection hfind'
        have hflag : (modules.takeWhile (fun m' => !(m'.id == module_id))).all
              (fun m' => effectively_completed (st1 m'.id)) =
            (modules.takeWhile (fun m' => !(m'.id == module_id))).all
              (fun m' => effectively_completed (store m'.id)) := by
          apply all_congr_of_mem
          intro m' hm'
          have hne : m'.id ≠ module_id := by
            simpa using List.mem_takeWhile_imp hm'
          rw [hst1, update_store_other _ _ _ _ hne]
        have hfind1 : (build_training_module_payload_for_mentor modules
              st1).find? (fun item => item.id == module_id) =
            some (payload_entry mstar (st1 mstar.id)
              (true && (modules.takeWhile
                  (fun m' => !(m'.id == module_id))).all
                (fun m' => effectively_completed (st1 m'.id)))) := by
          rw [hfind0 st1, hmf, Option.map_some']
        have hst1id : st1 mstar.id = some (saved_progress
            (max (current_percent
              ((store module_id).getD default_progress_row)) 50) now) := by
          rw [hmsid, hst1]
          exact update_store_same _ _ _
        have heff2 : effectively_completed (st1 mstar.id) =
            decide (100 ≤ max (current_percent
              ((store module_id).getD default_progress_row)) 50) := by
          rw [hst1id]
          exact effectively_completed_saved _ _
        have hguard : (payload_entry mstar (st1 mstar.id)
            (true && (modules.takeWhile
                (fun m' => !(m'.id == module_id))).all
              (fun m' => effectively_completed (st1 m'.id)))).training_status ≠
            "locked" := by
          by_cases h100 : 100 ≤ max (current_percent
              ((store module_id).getD default_progress_row)) 50
          · have hcomp : (payload_entry mstar (st1 mstar.id)
                (true && (modules.takeWhile
                    (fun m' => !(m'.id == module_id))).all
                  (fun m' => effectively_completed
                    (st1 m'.id)))).training_status = "completed" :=
              (payload_entry_completed_iff _ _ _).mpr
                (by rw [heff2]; simpa using h100)
            rw [hcomp]
            decide
          · -- the first call went through the predecessors, so the prefix
            -- flag was true unless the module itself was completed
            have hflag1 : (modules.takeWhile
                  (fun m' => !(m'.id == module_id))).all
                (fun m' => effectively_completed (store m'.id)) = true := by
              by_cases heffs : effectively_completed (store mstar.id) = true
              · exfalso
                have := current_percent_of_effectively_completed store
                  module_id hwf (by rw [← hmsid]; exact heffs)
                rw [this] at h100
                omega
              · by_contra hb
                apply hnl
                rw [← hmseq, payload_entry_locked_iff]
                exact ⟨by simpa using heffs, by
                  rw [Bool.true_and]; simpa using hb⟩
            intro hlk
            rw [payload_entry_locked_iff] at hlk
            rw [Bool.true_and, hflag, hflag1] at hlk
            exact absurd hlk.2 (by decide)
        have hcur2 : ¬ current_percent
            ((st1 module_id).getD default_progress_row) < 50 := by
          rw [← hmsid, hst1id]
          simp only [Option.getD_some]
          rw [current_percent_saved]
          have hmx := Nat.le_max_right
            (current_percent ((store module_id).getD default_progress_row)) 50
          split_ifs <;> omega
        refine ⟨?_, ?_⟩
        · rw [watch_video_unfold_found modules st1 module_id 2 now2 _ hfind1,
            if_neg (by simpa using hguard), if_neg (by decide), if_neg hcur2]
        · rw [update_store_same]
          unfold saved_progress
          norm_num

/-- C6 witness: a single module with no prior progress — video 2 first fails
with 400, video 1 then video 2 completes the module. -/
theorem C6_record_watch_witness :
    ((build_training_module_payload_for_mentor [⟨1, "M"⟩] empty_store).find?
        (fun item => item.id == 1) =
      some (⟨1, "in_progress", 0, none⟩ : ModuleState)) ∧
    (((⟨1, "in_progress", 0, none⟩ : ModuleState).training_status = "locked" →
      ∀ v, watch_video [⟨1, "M"⟩] empty_store 1 v 3 = .error .conflict) ∧
    ((⟨1, "in_progress", 0, none⟩ : ModuleState).training_status ≠ "locked" →
      (watch_video [⟨1, "M"⟩] empty_store 1 1 3 =
        .ok (update_store empty_store 1 (saved_progress
          (max (current_percent ((empty_store 1).getD default_progress_row))
            50) 3)) ∧
        (saved_progress (max (current_percent
            ((empty_store 1).getD default_progress_row)) 50)
          3).progress_percent =
          max (current_percent ((empty_store 1).getD default_progress_row))
            50 ∧
        (saved_progress (max (current_percent
            ((empty_store 1).getD default_progress_row)) 50) 3).status =
          (if 100 ≤ max (current_percent
              ((empty_store 1).getD default_progress_row)) 50
            then "completed" else "in_progress")) ∧
      (current_percent ((empty_store 1).getD default_progress_row) < 50 →
        watch_video [⟨1, "M"⟩] empty_store 1 2 3 = .error .invalidRequest) ∧
      (50 ≤ current_percent ((empty_store 1).getD default_progress_row) →
        watch_video [⟨1, "M"⟩] empty_store 1 2 3 =
          .ok (update_store empty_store 1 (saved_progress 100 3)) ∧
        (saved_progress 100 3).progress_percent = 100 ∧
        (saved_progress 100 3).status = "completed" ∧
        (saved_progress 100 3).completed_at = some 3) ∧
      (WellFormedStore empty_store →
        ∀ st1, watch_video [⟨1, "M"⟩] empty_store 1 1 3 = .ok st1 →
          watch_video [⟨1, "M"⟩] st1 1 2 4 =
            .ok (update_store st1 1 (saved_progress 100 4)) ∧
          update_store st1 1 (saved_progress 100 4) 1 =
            some (⟨"completed", 100, some 4⟩ : MentorTrainingProgress)))) :=
  ⟨by decide, C6_record_watch [⟨1, "M"⟩] empty_store 1 3 4
    (⟨1, "in_progress", 0, none⟩ : ModuleState) (by decide)⟩

/-- C8: `quiz_start` fails with `Conflict` unless every active module is
effectively completed; an existing passed attempt is returned with no new
generation; an existing pending attempt is resumed unchanged; otherwise it
calls the generator, and a generation failure surfaces `ServiceUnavailable`
with no partial attempt persisted; a fresh set persists exactly one new
pending attempt. -/
theorem C8_quiz_start_behaviour (modules : List TrainingModule)
    (store : ProgressStore) (attempts : List QuizAttempt)
    (sources : Nat → GenerationSource)
    (shuffles : Nat → List QuizQuestion → List QuizQuestion)
    (new_id started_at : Nat) :
    (_modules_fully_completed
        (build_training_module_payload_for_mentor modules store) = false →
      quiz_start modules store attempts sources shuffles new_id started_at =
        (.conflictModulesIncomplete, attempts)) ∧
    (∀ a, _modules_fully_completed
        (build_training_module_payload_for_mentor modules store) = true →
      latest_by_recency (attempts.filter (fun x => x.status == "passed")) =
        some a →
      quiz_start modules store attempts sources shuffles new_id started_at =
        (.alreadyPassed a, attempts)) ∧
    (∀ a, _modules_fully_completed
        (build_training_module_payload_for_mentor modules store) = true →
      latest_by_recency (attempts.filter (fun x => x.status == "passed")) =
        none →
      latest_by_recency (attempts.filter (fun x => x.status == "pending")) =
        some a →
      quiz_start modules store attempts sources shuffles new_id started_at =
        (.resumedPending a, attempts)) ∧
    (∀ e, _modules_fully_completed
        (build_training_module_payload_for_mentor modules store) = true →
      latest_by_recency (attempts.filter (fun x => x.status == "passed")) =
        none →
      latest_by_recency (attempts.filter (fun x => x.status == "pending")) =
        none →
      quiz_start_generation modules sources shuffles
        ((latest_by_recency (attempts.filter
          (fun a => !(a.status == "pending")))).map
          (fun a => quiz_questions_signature a.questions)) = .error e →
      quiz_start modules store attempts sources shuffles new_id started_at =
        (.unavailable, attempts)) ∧
    (∀ qs, _modules_fully_completed
        (build_training_module_payload_for_mentor modules store) = true →
      latest_by_recency (attempts.filter (fun x => x.status == "passed")) =
        none →
      latest_by_recency (attempts.filter (fun x => x.status == "pending")) =
        none →
      quiz_start_generation modules sources shuffles
        ((latest_by_recency (attempts.filter
          (fun a => !(a.status == "pending")))).map
          (fun a => quiz_questions_signature a.questions)) = .ok qs →
      quiz_start modules store attempts sources shuffles new_id started_at =
        (.created ⟨new_id, 15, TRAINING_QUIZ_PASS_MARK, qs, [], 0, "pending",
          started_at, none⟩,
          attempts ++ [⟨new_id, 15, TRAINING_QUIZ_PASS_MARK, qs, [], 0,
            "pending", started_at, none⟩])) := by
  refine ⟨?_, ?_, ?_, ?_, ?_⟩
  · intro hfull
    unfold quiz_start
    dsimp only
    rw [hfull]
    rfl
  · intro a hfull hpassed
    unfold quiz_start
    dsimp only
    rw [hfull, hpassed]
    rfl
  · intro a hfull hpassed hpending
    unfold quiz_start
    dsimp only
    rw [hfull, hpassed, hpending]
    rfl
  · intro e hfull hpassed hpending hgen
    unfold quiz_start
    dsimp only
    rw [hfull, hpassed, hpending, hgen]
    rfl
  · intro qs hfull hpassed hpending hgen
    unfold quiz_start
    dsimp only
    rw [hfull, hpassed, hpending, hgen]
    rfl

/-- C8 witness: with no active modules the payload is empty, so starting the
quiz answers `Conflict` and persists nothing. -/
theorem C8_quiz_start_behaviour_witness :
    _modules_fully_completed
      (build_training_module_payload_for_mentor [] empty_store) = false ∧
    quiz_start [] empty_store [] (fun _ _ _ _ => []) (fun _ l => l) 1 0 =
      (.conflictModulesIncomplete, []) :=
  ⟨by decide,
    (C8_quiz_start_behaviour [] empty_store [] (fun _ _ _ _ => [])
      (fun _ l => l) 1 0).1 (by decide)⟩

/-- C9 counterexample: abandoning a non-pending attempt does not fail with
`Conflict`: the code skips the mutation and answers 200 with the attempt
unchanged. -/
theorem C9_counterexample_abandon_returns_200 :
    quiz_abandon [c9_failed_attempt] 1 9 =
      (.done c9_failed_attempt, [c9_failed_attempt]) ∧
    abandon_http_status (quiz_abandon [c9_failed_attempt] 1 9).1 = 200 ∧
    (200 : Nat) ≠ 409 :=
  ⟨by decide, by decide, by decide⟩

/-- C9 (amended): once an attempt is non-pending it is immutable: a further
submit fails with `Conflict` (409) returning the attempt unchanged, and a
further abandon is a 200 no-op returning the attempt unchanged (not a
`Conflict`). -/
theorem C9_terminal_attempts_immutable (attempts : List QuizAttempt)
    (attempt_id now : Nat) (attempt : QuizAttempt)
    (sel : List (Option Int))
    (hfind : find_attempt attempts attempt_id = some attempt)
    (hterm : attempt.status ≠ "pending") :
    quiz_submit attempts attempt_id sel now =
      (.conflictAlreadySubmitted attempt, attempts) ∧
    submit_http_status (quiz_submit attempts attempt_id sel now).1 = 409 ∧
    quiz_abandon attempts attempt_id now = (.done attempt, attempts) ∧
    abandon_http_status (quiz_abandon attempts attempt_id now).1 = 200 := by
  have hsub : quiz_submit attempts attempt_id sel now =
      (.conflictAlreadySubmitted attempt, attempts) := by
    unfold quiz_submit
    rw [hfind]
    dsimp only
    rw [if_pos hterm]
  have hab : quiz_abandon attempts attempt_id now =
      (.done attempt, attempts) := by
    unfold quiz_abandon
    rw [hfind]
    dsimp only
    rw [if_neg (by simpa using hterm)]
  exact ⟨hsub, by rw [hsub]; rfl, hab, by rw [hab]; rfl⟩

/-- C9 witness: the concrete failed attempt is immutable under both submit
and abandon. -/
theorem C9_terminal_attempts_immutable_witness :
    find_attempt [c9_failed_attempt] 1 = some c9_failed_attempt ∧
    (quiz_submit [c9_failed_attempt] 1 [some 0] 9 =
      (.conflictAlreadySubmitted c9_failed_attempt, [c9_failed_attempt]) ∧
    submit_http_status (quiz_submit [c9_failed_attempt] 1 [some 0] 9).1 =
      409 ∧
    quiz_abandon [c9_failed_attempt] 1 9 =
      (.done c9_failed_attempt, [c9_failed_attempt]) ∧
    abandon_http_status (quiz_abandon [c9_failed_attempt] 1 9).1 = 200) :=
  ⟨by decide, C9_terminal_attempts_immutable [c9_failed_attempt] 1 9
    c9_failed_attempt [some 0] (by decide) (by decide)⟩

/-- C10: submitting a pending attempt grades against the module constant
`TRAINING_QUIZ_PASS_MARK = 7` only: the stored `pass_mark` value never
influences the outcome, and the persisted attempt's `pass_mark` is
overwritten to 7. -/
theorem C10_pass_mark_overwritten (attempt : QuizAttempt) (v w : Nat)
    (sel : List (Option Int)) (now : Nat)
    (hpend : attempt.status = "pending") :
    quiz_submit [{attempt with pass_mark := v}] attempt.id sel now =
      quiz_submit [{attempt with pass_mark := w}] attempt.id sel now ∧
    (∀ passed score wrong updated state',
      quiz_submit [{attempt with pass_mark := v}] attempt.id sel now =
        (.graded passed score wrong updated, state') →
      updated.pass_mark = TRAINING_QUIZ_PASS_MARK ∧
      TRAINING_QUIZ_PASS_MARK = 7 ∧
      (passed = true ↔ 7 ≤ score) ∧
      score = (grade_quiz attempt.questions sel).1 ∧
      state' = [updated]) := by
  have hmark : ∀ u : Nat,
      (if u ≠ TRAINING_QUIZ_PASS_MARK then TRAINING_QUIZ_PASS_MARK else u) =
        TRAINING_QUIZ_PASS_MARK := by
    intro u
    by_cases h : u = TRAINING_QUIZ_PASS_MARK
    · rw [if_neg (by simpa using h), h]
    · rw [if_pos h]
  have hrun : ∀ u : Nat,
      quiz_submit [{attempt with pass_mark := u}] attempt.id sel now =
        (.graded (decide (TRAINING_QUIZ_PASS_MARK ≤
            (grade_quiz attempt.questions sel).1))
          (grade_quiz attempt.questions sel).1
          (attempt.total_questions - (grade_quiz attempt.questions sel).1)
          { attempt with
            pass_mark := TRAINING_QUIZ_PASS_MARK,
            selected_answers := (grade_quiz attempt.questions sel).2,
            score := (grade_quiz attempt.questions sel).1,
            status := if TRAINING_QUIZ_PASS_MARK ≤
                (grade_quiz attempt.questions sel).1 then "passed"
              else "failed",
            submitted_at := some now },
          [{ attempt with
            pass_mark := TRAINING_QUIZ_PASS_MARK,
            selected_answers := (grade_quiz attempt.questions sel).2,
            score := (grade_quiz attempt.questions sel).1,
            status := if TRAINING_QUIZ_PASS_MARK ≤
                (grade_quiz attempt.questions sel).1 then "passed"
              else "failed",
            submitted_at := some now }]) := by
    intro u
    unfold quiz_submit
    have hfind : find_attempt [{attempt with pass_mark := u}] attempt.id =
        some {attempt with pass_mark := u} := by
      simp [find_attempt]
    rw [hfind]
    dsimp only
    rw [if_neg (by simpa using hpend)]
    rw [hmark u]
    unfold replace_attempt
    simp

  constructor
  · rw [hrun v, hrun w]
  · intro passed score wrong updated state' heq
    rw [hrun v] at heq
    injection heq with h1 h2
    injection h1 with hp hs hw hu
    subst hp
    subst hs
    subst hw
    subst hu
    subst h2
    refine ⟨rfl, rfl, ?_, rfl, rfl⟩
    simp [TRAINING_QUIZ_PASS_MARK]

/-- C10 witness: a pending attempt stored with pass mark 3 is graded against
7 and saved with pass mark 7. -/
theorem C10_pass_mark_overwritten_witness :
    (c10_pending_attempt.status = "pending") ∧
    (quiz_submit [{c10_pending_attempt with pass_mark := 3}]
        c10_pending_attempt.id [some 0] 5 =
      quiz_submit [{c10_pending_attempt with pass_mark := 9}]
        c10_pending_attempt.id [some 0] 5) ∧
    (∀ passed score wrong updated state',
      quiz_submit [{c10_pending_attempt with pass_mark := 3}]
          c10_pending_attempt.id [some 0] 5 =
        (.graded passed score wrong updated, state') →
      updated.pass_mark = TRAINING_QUIZ_PASS_MARK ∧
      TRAINING_QUIZ_PASS_MARK = 7 ∧
      (passed = true ↔ 7 ≤ score) ∧
      score = (grade_quiz c10_pending_attempt.questions [some 0]).1 ∧
      state' = [updated]) :=
  ⟨by decide,
    (C10_pass_mark_overwritten c10_pending_attempt 3 9 [some 0] 5 rfl).1,
    (C10_pass_mark_overwritten c10_pending_attempt 3 9 [some 0] 5 rfl).2⟩

end BondRoom
